import Mathlib

/-!
Verification of the multi-source flood-report normalization, lifecycle and
annual-archival subsystem of `signalement-inondation`.

The definitions below are a shallow embedding of the JavaScript source in
`scripts/grist-to-geojson.js` (main revision).  Conventions used throughout:

* JavaScript `null`/`undefined` string-or-number fields are modelled as
  `Option String` (numeric ids are written as their decimal strings);
  JavaScript truthiness of such a field is "is `some s` with `s ≠ \"\"`".
* Dates exchanged with the filesystem are the display strings
  `DD/MM/YYYY à HHhMM`; the regular-expression parsers of the source are
  reimplemented character by character over `String.data`.
* `new Date(y, m, d, h, min)` and the millisecond subtraction in
  `isOlderThan3Days` are modelled on a single local-time axis: the proleptic
  Gregorian calendar (with the JavaScript 0–99 → 1900–1999 year adjustment
  and month/day rollover via floor division), ignoring the time-zone offset,
  which is the same fixed offset on both sides of the subtraction.
* The archive directory (`archives/signalements_<year>.geojson`) is modelled
  as an association list from year to partition; `loadArchive` of a missing
  year returns a fresh empty partition, exactly as the source does.
* The per-file `metadata` blocks (creation/last-update timestamps) and
  `console.log` calls carry no data used by any decision and are omitted.
-/

/-- Planar or geographic coordinate pair.  Coordinate values are never
inspected arithmetically by the subsystem under verification, so the
floating-point numbers of the source are modelled as integers. -/
abbrev Coord := Int × Int

/-- GeoJSON geometry as used by the script (`Point`, `LineString`,
`MultiLineString`, `Polygon`). -/
inductive Geometry where
  | point (c : Coord)
  | lineString (cs : List Coord)
  | multiLineString (cs : List (List Coord))
  | polygon (rings : List (List Coord))
deriving DecidableEq

/-- The canonical property set carried by every normalized feature
(`properties` object produced by the six converters).  `agence`,
`pr_debut`, `pr_fin` are extra keys only the CD35 converter writes; they are
modelled as always present with default `""`. -/
structure Props where
  id : Nat
  id_source : Option String
  source : String
  route : String
  commune : String
  cause : String
  statut : String
  statut_actif : Bool
  statut_resolu : Bool
  type_coupure : String
  sens_circulation : String
  commentaire : String
  date_debut : String
  date_fin : String
  date_saisie : String
  date_suppression : String
  gestionnaire : String
  agence : String
  pr_debut : String
  pr_fin : String
deriving DecidableEq

/-- A normalized GeoJSON feature (the constant `type: 'Feature'` tag is
omitted). -/
structure Feature where
  geometry : Geometry
  properties : Props
deriving DecidableEq

/-- One year partition of the archive (`archives/signalements_<year>.geojson`);
the bookkeeping `metadata` block is omitted. -/
structure Archive where
  features : List Feature
deriving DecidableEq

/-- The `archives/` directory: an association of calendar years to persisted
partitions. -/
abbrev Store := List (Nat × Archive)

/-- `loadArchive(year)`: read the persisted partition, or a fresh empty one
when no file exists for that year (absence is not an error). -/
def loadArchive (store : Store) (year : Nat) : Archive :=
  match store with
  | [] => { features := [] }
  | e :: rest => if e.1 == year then e.2 else loadArchive rest year

/-- `saveArchive(year, geojson)`: persist the full partition for that year
(overwriting the previous file, creating it when missing). -/
def saveArchive (store : Store) (year : Nat) (a : Archive) : Store :=
  match store with
  | [] => [(year, a)]
  | e :: rest => if e.1 == year then (year, a) :: rest else e :: saveArchive rest year a

/-- Digit value of a decimal digit character. -/
def digitVal (c : Char) : Nat := c.toNat - '0'.toNat

/-- Match of the regular expression `\d{2}\/\d{2}\/(\d{4})` at the head of the
character list, returning `parseInt` of the captured year. -/
def matchYearAt : List Char → Option Nat
  | d1 :: d2 :: '/' :: m1 :: m2 :: '/' :: y1 :: y2 :: y3 :: y4 :: _ =>
    if d1.isDigit && d2.isDigit && m1.isDigit && m2.isDigit &&
       y1.isDigit && y2.isDigit && y3.isDigit && y4.isDigit then
      some (digitVal y1 * 1000 + digitVal y2 * 100 + digitVal y3 * 10 + digitVal y4)
    else none
  | _ => none

/-- Leftmost match of `\d{2}\/\d{2}\/(\d{4})` (JavaScript `String.match`
without the global flag scans start positions left to right). -/
def scanYear : List Char → Option Nat
  | [] => none
  | l@(_ :: rest) =>
    match matchYearAt l with
    | some y => some y
    | none => scanYear rest

/-- `getYearFromDateDebut(dateString)`: extract the year from a
`DD/MM/YYYY à HHhMM` display string; `null` when the string is falsy or the
pattern does not occur. -/
def getYearFromDateDebut (s : String) : Option Nat :=
  if s = "" then none else scanYear s.data

/-- Predicate used by `findInArchive`: same `id_source` (JavaScript `===`,
under which `null === null`) and same `source`. -/
def matchesIdSource (idSource : Option String) (source : String) (f : Feature) : Bool :=
  f.properties.id_source == idSource && f.properties.source == source

/-- `Array.prototype.findIndex`, with `-1` modelled as `none`. -/
def findIdxA (p : Feature → Bool) : List Feature → Option Nat
  | [] => none
  | f :: rest => if p f then some 0 else (findIdxA p rest).map (· + 1)

/-- `findInArchive(archive, idSource, source)`: index of the first archived
feature with the given `(id_source, source)` pair. -/
def findInArchive (archive : Archive) (idSource : Option String) (source : String) : Option Nat :=
  findIdxA (matchesIdSource idSource source) archive.features

/-- The copy pushed into the archive on the append paths of
`addOrUpdateInArchive`: the incoming feature with `date_suppression`
cleared. -/
def setSupp (f : Feature) : Feature :=
  { f with properties := { f.properties with date_suppression := "" } }

/-- The in-place mutation of a matching same-`date_debut` archive entry in
`addOrUpdateInArchive`: transition to `Résolu` (copying `date_fin`) when the
stored entry was not yet resolved and the incoming report is resolved with a
truthy `date_fin`; always refresh geometry, `type_coupure` and
`commentaire`. -/
def updateExisting (existing feature : Feature) : Feature :=
  let props := feature.properties
  let ep := existing.properties
  let ep1 :=
    if !ep.statut_resolu && (props.statut_resolu && (props.date_fin != "")) then
      { ep with statut := "Résolu", statut_resolu := true, date_fin := props.date_fin }
    else ep
  { geometry := feature.geometry,
    properties := { ep1 with type_coupure := props.type_coupure, commentaire := props.commentaire } }

/-- `addOrUpdateInArchive(feature)`: the upsert of the Archive Store.  The
source guard `if (!year) return` treats both a missing match and the number
`0` as falsy, hence the extra `year = 0` skip. -/
def addOrUpdateInArchive (store : Store) (feature : Feature) : Store :=
  let props := feature.properties
  match getYearFromDateDebut props.date_debut with
  | none => store
  | some year =>
    if year = 0 then store
    else
      let archive := loadArchive store year
      match findInArchive archive props.id_source props.source with
      | some i =>
        match archive.features[i]? with
        | none => store
        | some existing =>
          if existing.properties.date_debut != props.date_debut then
            saveArchive store year { features := archive.features ++ [setSupp feature] }
          else
            saveArchive store year
              { features := archive.features.set i (updateExisting existing feature) }
      | none =>
        saveArchive store year { features := archive.features ++ [setSupp feature] }

/-- Whitespace in the sense of the JavaScript regex class `\s` (restricted to
the ASCII whitespace characters; the Unicode spaces never occur in the
fixed-format date strings). -/
def wsp (c : Char) : Bool :=
  c = ' ' || c = '\t' || c = '\n' || c = '\r' || c = '\x0b' || c = '\x0c'

/-- Consume as much whitespace as possible. -/
def skipWsMore : List Char → List Char
  | c :: rest => if wsp c then skipWsMore rest else c :: rest
  | [] => []

/-- Consume the regex `\s+`: at least one whitespace character, greedily. -/
def skipWs1 : List Char → Option (List Char)
  | c :: rest => if wsp c then some (skipWsMore rest) else none
  | [] => none

/-- Match of `(\d{2})\/(\d{2})\/(\d{4})\s+à\s+(\d{2})h(\d{2})` at the head of
the list, returning `(day, month, year, hours, minutes)`. -/
def matchFullDateAt : List Char → Option (Nat × Nat × Nat × Nat × Nat)
  | d1 :: d2 :: '/' :: m1 :: m2 :: '/' :: y1 :: y2 :: y3 :: y4 :: rest =>
    if d1.isDigit && d2.isDigit && m1.isDigit && m2.isDigit &&
       y1.isDigit && y2.isDigit && y3.isDigit && y4.isDigit then
      match skipWs1 rest with
      | some ('à' :: rest2) =>
        match skipWs1 rest2 with
        | some (h1 :: h2 :: 'h' :: n1 :: n2 :: _) =>
          if h1.isDigit && h2.isDigit && n1.isDigit && n2.isDigit then
            some (digitVal d1 * 10 + digitVal d2,
                  digitVal m1 * 10 + digitVal m2,
                  digitVal y1 * 1000 + digitVal y2 * 100 + digitVal y3 * 10 + digitVal y4,
                  digitVal h1 * 10 + digitVal h2,
                  digitVal n1 * 10 + digitVal n2)
          else none
        | _ => none
      | _ => none
    else none
  | _ => none

/-- Leftmost match of the full `DD/MM/YYYY à HHhMM` pattern. -/
def scanFullDate : List Char → Option (Nat × Nat × Nat × Nat × Nat)
  | [] => none
  | l@(_ :: rest) =>
    match matchFullDateAt l with
    | some r => some r
    | none => scanFullDate rest

/-- Parse a `DD/MM/YYYY à HHhMM` display string, as the regex of
`isOlderThan3Days` does. -/
def parseDateFR (s : String) : Option (Nat × Nat × Nat × Nat × Nat) :=
  scanFullDate s.data

/-- Day count of a proleptic-Gregorian civil date (1 Jan 1970 = day 0),
months `1..12`; the standard `days_from_civil` computation with floor
division. -/
def daysFromCivil (y m d : Int) : Int :=
  let y' := if m ≤ 2 then y - 1 else y
  let era := Int.fdiv y' 400
  let yoe := y' - era * 400
  let mp := Int.fmod (m + 9) 12
  let doy := Int.fdiv (153 * mp + 2) 5 + d - 1
  let doe := yoe * 365 + Int.fdiv yoe 4 - Int.fdiv yoe 100 + doy
  era * 146097 + doe - 719468

/-- `new Date(year, monthIndex, day, hours, minutes).getTime()` on the local
wall-clock axis: years 0–99 read as 1900–1999, month and day rolled over
exactly as JavaScript does, result in milliseconds. -/
def jsDateMs (year monthIndex day hours minutes : Int) : Int :=
  let y := if 0 ≤ year ∧ year ≤ 99 then year + 1900 else year
  let ny := y + Int.fdiv monthIndex 12
  let nm := Int.fmod monthIndex 12 + 1
  (daysFromCivil ny nm 1 + (day - 1)) * 86400000 + hours * 3600000 + minutes * 60000

/-- `isOlderThan3Days(dateString)` against the current instant `nowMs` (both
on the local wall-clock axis).  The JavaScript comparison
`diffMs / 86400000 > 3` in double precision is equivalent to the exact
integer comparison `diffMs > 259200000`: the bound `3 * 86400000` is exactly
representable and the quotient of any other integer differs from `3` by at
least `1/86400000`, far above the rounding error of the division. -/
def isOlderThan3Days (nowMs : Int) (dateString : String) : Bool :=
  if dateString = "" then false
  else
    match parseDateFR dateString with
    | none => false
    | some (d, m, y, h, n) =>
      nowMs - jsDateMs (y : Int) ((m : Int) - 1) (d : Int) (h : Int) (n : Int) > 259200000

/-- Result of `shouldKeepFeature`. -/
structure KeepResult where
  keep : Bool
  filteredResolved : Bool
deriving DecidableEq

/-- `shouldKeepFeature(feature)`: the lifecycle filter.  Active reports are
always kept; resolved reports are dropped only when their `date_fin` is
truthy and older than 3 days; everything else is kept by default. -/
def shouldKeepFeature (nowMs : Int) (feature : Feature) : KeepResult :=
  let props := feature.properties
  if props.statut_actif then
    { keep := true, filteredResolved := false }
  else if props.statut_resolu then
    if props.date_fin != "" && isOlderThan3Days nowMs props.date_fin then
      { keep := false, filteredResolved := true }
    else
      { keep := true, filteredResolved := false }
  else
    { keep := true, filteredResolved := false }

/-- The persisted run snapshot `archives/last_run.json`. -/
structure LastRun where
  date : Option String
  actifs : List (String × List String)
deriving DecidableEq

/-- Persistent state touched by deletion detection: the archive directory and
the run snapshot. -/
structure SysState where
  store : Store
  lastRun : LastRun
deriving DecidableEq

/-- Current local date/time, as the components JavaScript reads from a `Date`
(`month` is the human month `1..12`, i.e. `getMonth() + 1`). -/
structure LocalNow where
  year : Nat
  month : Nat
  day : Nat
  hour : Nat
  minute : Nat
deriving DecidableEq

/-- `String(n).padStart(2, '0')`. -/
def pad2 (n : Nat) : String :=
  if n < 10 then "0" ++ toString n else toString n

/-- The `dateSuppressionFormatted` template literal of
`detectDeletedSignalements`. -/
def dateSuppressionFormatted (now : LocalNow) : String :=
  pad2 now.day ++ "/" ++ pad2 now.month ++ "/" ++ toString now.year ++ " à " ++
    pad2 now.hour ++ "h" ++ pad2 now.minute

/-- JavaScript truthiness of a nullable string-or-number field (`0` is
modelled as `"0"` only where it cannot occur; the empty string is the falsy
string). -/
def optTruthy : Option String → Bool
  | some s => s != ""
  | none => false

/-- The fixed key set of the `currentActifs` object. -/
def initialActifs : List (String × List String) :=
  [("Saisie Grist", []), ("CD44", []), ("Rennes Métropole", []),
   ("CD35 Inondations", []), ("CD56", []), ("DIRO", [])]

/-- `currentActifs[props.source].push(props.id_source)` — append only when
the key exists in the object. -/
def pushActif (acc : List (String × List String)) (src : String) (id : String) :
    List (String × List String) :=
  acc.map (fun e => if e.1 == src then (e.1, e.2 ++ [id]) else e)

/-- The `currentFeatures.forEach` loop building `currentActifs`: record the
`id_source` of every feature that is active with a truthy `id_source` under
its source key (unknown sources are dropped by the key-existence check). -/
def buildCurrentActifs (features : List Feature) : List (String × List String) :=
  features.foldl
    (fun acc f =>
      if f.properties.statut_actif && optTruthy f.properties.id_source then
        match f.properties.id_source with
        | some s => pushActif acc f.properties.source s
        | none => acc
      else acc)
    initialActifs

/-- `currentActifs[source] || []`. -/
def lookupActifs (l : List (String × List String)) (src : String) : List String :=
  match l.find? (fun e => e.1 == src) with
  | some e => e.2
  | none => []

/-- The mutation applied to an archive entry detected as deleted. -/
def markDeleted (now : LocalNow) (f : Feature) : Feature :=
  { f with properties := { f.properties with
      statut := "Supprimé", statut_actif := false,
      date_suppression := dateSuppressionFormatted now } }

/-- One iteration of the `yearsToCheck.forEach` loop of
`detectDeletedSignalements`: skip once `found`, otherwise look the pair up
in that year's partition and mark the entry deleted only when it is still
active with a falsy `date_suppression`. -/
def processYear (src : String) (idSource : String) (now : LocalNow)
    (acc : Store × Bool) (year : Nat) : Store × Bool :=
  if acc.2 then acc
  else
    let archive := loadArchive acc.1 year
    match findInArchive archive (some idSource) src with
    | none => acc
    | some i =>
      match archive.features[i]? with
      | none => acc
      | some f =>
        if f.properties.statut_actif && (f.properties.date_suppression == "") then
          (saveArchive acc.1 year { features := archive.features.set i (markDeleted now f) },
           true)
        else acc

/-- Processing of one `(source, idSource)` pair that vanished from the active
set: check the current year then the preceding year. -/
def processMissing (src : String) (idSource : String) (now : LocalNow) (store : Store) : Store :=
  (([now.year, now.year - 1]).foldl (processYear src idSource now) (store, false)).1

/-- `detectDeletedSignalements(currentFeatures)`.  On a first run (falsy
snapshot date) only the snapshot is saved; otherwise every previously-active
pair that is no longer active is processed through the two-year archive
lookup, and the snapshot is overwritten. -/
def detectDeletedSignalements (now : LocalNow) (nowISO : String)
    (currentFeatures : List Feature) (st : SysState) : SysState :=
  let lastRun := st.lastRun
  let currentActifs := buildCurrentActifs currentFeatures
  if optTruthy lastRun.date then
    let store :=
      lastRun.actifs.foldl
        (fun acc e =>
          let currentIds := lookupActifs currentActifs e.1
          e.2.foldl
            (fun acc2 idSource =>
              if currentIds.contains idSource then acc2
              else processMissing e.1 idSource now acc2)
            acc)
        st.store
    { store := store, lastRun := { date := some nowISO, actifs := currentActifs } }
  else
    { st with lastRun := { date := some nowISO, actifs := currentActifs } }

/-- `x || dflt` for a nullable string field. -/
def fieldOr (o : Option String) (dflt : String) : String :=
  match o with
  | some s => if s = "" then dflt else s
  | none => dflt

/-- `a || b || null` over two nullable string fields. -/
def jsOrOpt (a b : Option String) : Option String :=
  if optTruthy a then a else if optTruthy b then b else none

/-- `x || null` over a nullable string field. -/
def jsOrNull (a : Option String) : Option String :=
  if optTruthy a then a else none

/-- The guard `if (!dateValue) return ''` of `formatDate`, with the remaining
timezone-dependent conversion abstracted as the pure function `fmt`
(date-string formatting is outside the core per the specification). -/
def formatDateM (fmt : String → String) (o : Option String) : String :=
  match o with
  | some v => if v = "" then "" else fmt v
  | none => ""

/-- Lower-casing as `String.prototype.toLowerCase` on the characters actually
occurring in the French status strings (ASCII plus the accented vowels). -/
def jsCharToLower (c : Char) : Char :=
  if c = 'É' then 'é' else if c = 'È' then 'è' else if c = 'Ê' then 'ê'
  else if c = 'À' then 'à' else if c = 'Ç' then 'ç' else if c = 'Ô' then 'ô'
  else if c = 'Û' then 'û' else if c = 'Î' then 'î' else c.toLower

/-- `String.prototype.toLowerCase` (on the relevant alphabet). -/
def jsToLowerCase (s : String) : String :=
  String.mk (s.data.map jsCharToLower)

/-- Upper-casing as `String.prototype.toUpperCase` on the relevant
alphabet. -/
def jsCharToUpper (c : Char) : Char :=
  if c = 'é' then 'É' else if c = 'è' then 'È' else if c = 'ê' then 'Ê'
  else if c = 'à' then 'À' else if c = 'ç' then 'Ç' else if c = 'ô' then 'Ô'
  else if c = 'û' then 'Û' else if c = 'î' then 'Î' else c.toUpper

/-- `String.prototype.toUpperCase` (on the relevant alphabet). -/
def jsToUpperCase (s : String) : String :=
  String.mk (s.data.map jsCharToUpper)

/-- A raw field that may hold either a string or an array of strings. -/
inductive StrOrArr where
  | str (s : String)
  | arr (l : List String)
deriving DecidableEq

/-- `fields` of one Grist record.  `geojson = some none` models a present
string that `JSON.parse` rejects (the converter then returns `null` through
its `catch`); `geojson = none` models an absent or falsy field. -/
structure GristFields where
  geojson : Option (Option Geometry) := none
  Latitude : Option Int := none
  Longitude : Option Int := none
  Cause : Option StrOrArr := none
  Statut : Option String := none
  Route : Option String := none
  Commune : Option String := none
  Type_coupure : Option String := none
  sens_circulation : Option String := none
  Description : Option String := none
  Date_heure_debut : Option String := none
  Date_heure_fin : Option String := none
  Date_heure : Option String := none
  Gestionnaire : Option String := none
deriving DecidableEq

/-- One record of the Grist table. -/
structure GristRecord where
  id : Option String := none
  fields : GristFields := {}
deriving DecidableEq

/-- JavaScript truthiness of a numeric field (`0` is falsy). -/
def intTruthy : Option Int → Bool
  | some n => n != 0
  | none => false

/-- `gristToFeature(record)`. -/
def gristToFeature (fmt : String → String) (uid : Nat) (record : GristRecord) : Option Feature :=
  let geom : Option Geometry :=
    match record.fields.geojson with
    | some parsed => parsed
    | none =>
      if intTruthy record.fields.Latitude && intTruthy record.fields.Longitude then
        some (Geometry.point (record.fields.Longitude.getD 0, record.fields.Latitude.getD 0))
      else none
  match geom with
  | none => none
  | some geometry =>
    let cause :=
      match record.fields.Cause with
      | some (.arr l) => String.intercalate ", " (l.filter (fun c => c != "L"))
      | some (.str s) => s
      | none => ""
    let statut := fieldOr record.fields.Statut "Actif"
    some { geometry := geometry,
           properties := {
             id := uid,
             id_source := jsOrNull record.id,
             source := "Saisie Grist",
             route := fieldOr record.fields.Route "",
             commune := fieldOr record.fields.Commune "",
             cause := if cause = "" then "Inondation" else cause,
             statut := statut,
             statut_actif := statut == "Actif",
             statut_resolu := statut == "Résolu",
             type_coupure := fieldOr record.fields.Type_coupure "Totale",
             sens_circulation := fieldOr record.fields.sens_circulation "",
             commentaire := fieldOr record.fields.Description "",
             date_debut := formatDateM fmt record.fields.Date_heure_debut,
             date_fin := formatDateM fmt record.fields.Date_heure_fin,
             date_saisie := formatDateM fmt record.fields.Date_heure,
             date_suppression := "",
             gestionnaire := fieldOr record.fields.Gestionnaire "",
             agence := "", pr_debut := "", pr_fin := "" } }

/-- Match of `au\s+(\d{2})\/(\d{2})\/(\d{4})` at the head of the list,
returning the three captured digit strings. -/
def matchAuDateAt : List Char → Option (String × String × String)
  | 'a' :: 'u' :: rest =>
    match skipWs1 rest with
    | some (d1 :: d2 :: '/' :: m1 :: m2 :: '/' :: y1 :: y2 :: y3 :: y4 :: _) =>
      if d1.isDigit && d2.isDigit && m1.isDigit && m2.isDigit &&
         y1.isDigit && y2.isDigit && y3.isDigit && y4.isDigit then
        some (String.mk [d1, d2], String.mk [m1, m2], String.mk [y1, y2, y3, y4])
      else none
    | _ => none
  | _ => none

/-- Leftmost match of `au\s+(\d{2})\/(\d{2})\/(\d{4})`. -/
def scanAuDate : List Char → Option (String × String × String)
  | [] => none
  | l@(_ :: rest) =>
    match matchAuDateAt l with
    | some r => some r
    | none => scanAuDate rest

/-- Match of `(\d{2})\/(\d{2})\/(\d{4})\s+à\s+(\d{1,2})h(\d{2})` at the head
of the list (the hour group backtracks from two digits to one), returning
the captured digit strings. -/
def matchFinDateAt : List Char → Option (String × String × String × String × String)
  | d1 :: d2 :: '/' :: m1 :: m2 :: '/' :: y1 :: y2 :: y3 :: y4 :: rest =>
    if d1.isDigit && d2.isDigit && m1.isDigit && m2.isDigit &&
       y1.isDigit && y2.isDigit && y3.isDigit && y4.isDigit then
      match skipWs1 rest with
      | some ('à' :: rest2) =>
        match skipWs1 rest2 with
        | some (h1 :: h2 :: 'h' :: n1 :: n2 :: _) =>
          if h1.isDigit && h2.isDigit && n1.isDigit && n2.isDigit then
            some (String.mk [d1, d2], String.mk [m1, m2], String.mk [y1, y2, y3, y4],
                  String.mk [h1, h2], String.mk [n1, n2])
          else
            if h1.isDigit && h2 = 'h' then
              match rest2 with
              | _ :: _ :: n1' :: n2' :: _ =>
                if n1'.isDigit && n2'.isDigit then
                  some (String.mk [d1, d2], String.mk [m1, m2], String.mk [y1, y2, y3, y4],
                        String.mk [h1], String.mk [n1', n2'])
                else none
              | _ => none
            else none
        | some (h1 :: 'h' :: n1 :: n2 :: _) =>
          if h1.isDigit && n1.isDigit && n2.isDigit then
            some (String.mk [d1, d2], String.mk [m1, m2], String.mk [y1, y2, y3, y4],
                  String.mk [h1], String.mk [n1, n2])
          else none
        | _ => none
      | _ => none
    else none
  | _ => none

/-- Leftmost match of the `Fin prévisible` pattern. -/
def scanFinDate : List Char → Option (String × String × String × String × String)
  | [] => none
  | l@(_ :: rest) =>
    match matchFinDateAt l with
    | some r => some r
    | none => scanFinDate rest

/-- `hours.padStart(2, '0')` on a captured digit string. -/
def padStart2 (s : String) : String :=
  if s.length < 2 then "0" ++ s else s

/-- `parseCD44DateFin(ligne4)`. -/
def parseCD44DateFin (ligne4 : String) : String :=
  if ligne4 = "" then ""
  else
    match scanAuDate ligne4.data with
    | some (d, m, y) => d ++ "/" ++ m ++ "/" ++ y ++ " à 00h00"
    | none =>
      match scanFinDate ligne4.data with
      | some (d, m, y, h, n) => d ++ "/" ++ m ++ "/" ++ y ++ " à " ++ padStart2 h ++ "h" ++ n
      | none => ""

/-- One record of the CD44 open-data API. -/
structure CD44Item where
  type : Option String := none
  longitude : Int := 0
  latitude : Int := 0
  ligne1 : Option String := none
  ligne2 : Option StrOrArr := none
  ligne3 : Option String := none
  ligne4 : Option String := none
  ligne5 : Option String := none
  datepublication : Option String := none
deriving DecidableEq

/-- `cd44ToFeature(item)`. -/
def cd44ToFeature (fmt : String → String) (uid : Nat) (item : CD44Item) : Option Feature :=
  if item.type ≠ some "Inondation" ∧ item.type ≠ some "inondation" then none
  else
    let route :=
      match item.ligne2 with
      | some (.arr l) => String.intercalate " / " l
      | some (.str s) => if s = "" then "Route" else s
      | none => "Route"
    let c1 := fieldOr item.ligne1 ""
    let commentaire :=
      match item.ligne5 with
      | some s => if s ≠ "" then (if c1 ≠ "" then c1 ++ " - " ++ s else s) else c1
      | none => c1
    some { geometry := Geometry.point (item.longitude, item.latitude),
           properties := {
             id := uid,
             id_source := none,
             source := "CD44",
             route := route,
             commune := fieldOr item.ligne3 "",
             cause := "Inondation",
             statut := "Actif",
             statut_actif := true,
             statut_resolu := false,
             type_coupure := "Totale",
             sens_circulation := "",
             commentaire := commentaire,
             date_debut := formatDateM fmt item.datepublication,
             date_fin := parseCD44DateFin (item.ligne4.getD ""),
             date_saisie := formatDateM fmt item.datepublication,
             date_suppression := "",
             gestionnaire := "CD44",
             agence := "", pr_debut := "", pr_fin := "" } }

/-- Properties of one Rennes Métropole WFS feature. -/
structure RMProps where
  raison : Option String := none
  etat : Option String := none
  id : Option String := none
  gid : Option String := none
  toponyme : Option String := none
  comm_nom : Option String := none
  commentaires : Option String := none
  date_debut : Option String := none
  date_fin : Option String := none
deriving DecidableEq

/-- One Rennes Métropole WFS feature. -/
structure RMFeature where
  geometry : Option Geometry := none
  properties : Option RMProps := none
deriving DecidableEq

/-- Coordinate-wise conversion of a geometry by the projection function
`conv` (CC48 → WGS84 is an external pure function per the specification);
only the three geometry types handled by the source are converted. -/
def convGeom (conv : Coord → Coord) : Geometry → Geometry
  | .point c => .point (conv c)
  | .lineString cs => .lineString (cs.map conv)
  | .multiLineString cs => .multiLineString (cs.map (fun l => l.map conv))
  | .polygon rings => .polygon rings

/-- `rennesMetroToFeature(feature, needsConversion)`. -/
def rennesMetroToFeature (fmt : String → String) (conv : Coord → Coord)
    (needsConversion : Bool) (uid : Nat) (feature : RMFeature) : Option Feature :=
  match feature.geometry with
  | none => none
  | some g0 =>
    let geometry := if needsConversion then convGeom conv g0 else g0
    let props := feature.properties.getD {}
    let etat := jsToLowerCase (fieldOr props.etat "")
    let isResolu := etat == "terminé" || etat == "termine"
    let isActif := etat == "en cours"
    let statut := if isResolu then "Résolu" else if isActif then "Actif" else etat
    some { geometry := geometry,
           properties := {
             id := uid,
             id_source := jsOrOpt props.id props.gid,
             source := "Rennes Métropole",
             route := fieldOr props.toponyme "",
             commune := fieldOr props.comm_nom "",
             cause := "Inondation",
             statut := statut,
             statut_actif := isActif,
             statut_resolu := isResolu,
             type_coupure := "Totale",
             sens_circulation := "",
             commentaire := fieldOr props.commentaires "",
             date_debut := formatDateM fmt props.date_debut,
             date_fin := formatDateM fmt props.date_fin,
             date_saisie := formatDateM fmt props.date_debut,
             date_suppression := "",
             gestionnaire := "Rennes Métropole",
             agence := "", pr_debut := "", pr_fin := "" } }

/-- Properties of one CD35 OGC feature. -/
structure CD35Props where
  OBJECTID : Option String := none
  route : Option String := none
  commune : Option String := none
  lieu_dit : Option String := none
  agence : Option String := none
  PR_debut : Option String := none
  PR_fin : Option String := none
deriving DecidableEq

/-- One CD35 OGC feature. -/
structure CD35Feature where
  geometry : Option Geometry := none
  properties : Option CD35Props := none
deriving DecidableEq

/-- `cd35InondationsToFeature(feature)`; `nowISO` is the
`new Date().toISOString()` written into `date_saisie`. -/
def cd35InondationsToFeature (nowISO : String) (uid : Nat) (feature : CD35Feature) :
    Option Feature :=
  match feature.geometry with
  | none => none
  | some geometry =>
    let props := feature.properties.getD {}
    some { geometry := geometry,
           properties := {
             id := uid,
             id_source := jsOrNull props.OBJECTID,
             source := "CD35 Inondations",
             route := fieldOr props.route "",
             commune := fieldOr props.commune "",
             cause := "Inondation",
             statut := "Actif",
             statut_actif := true,
             statut_resolu := false,
             type_coupure := "Totale",
             sens_circulation := "",
             commentaire := fieldOr props.lieu_dit "",
             date_debut := "",
             date_fin := "",
             date_saisie := nowISO,
             date_suppression := "",
             gestionnaire := "CD35",
             agence := fieldOr props.agence "",
             pr_debut := fieldOr props.PR_debut "",
             pr_fin := fieldOr props.PR_fin "" } }

/-- Properties of one CD56 OGC feature (with the alternative key spellings
the source probes). -/
structure CD56Props where
  conditions_circulation : Option String := none
  conditionsCirculation : Option String := none
  lineaire_inonde : Option String := none
  lineaireInonde : Option String := none
  OBJECTID : Option String := none
  objectid : Option String := none
  rd : Option String := none
  commune : Option String := none
  -- the source key `Date_fin_d_évènement` is modelled as `Date_fin_d_evenement`
  -- (accented Latin letters are not legal in Lean identifiers)
  date_constatation : Option String := none
  dateConstatation : Option String := none
  Date_fin_d_evenement : Option String := none
  date_fin_evenement : Option String := none
  dateFin : Option String := none
deriving DecidableEq

/-- One CD56 OGC feature. -/
structure CD56Feature where
  geometry : Option Geometry := none
  properties : Option CD56Props := none
deriving DecidableEq

/-- `cd56ToFeature(feature)`. -/
def cd56ToFeature (fmt : String → String) (uid : Nat) (feature : CD56Feature) : Option Feature :=
  match feature.geometry with
  | none => none
  | some geometry =>
    let props := feature.properties.getD {}
    let cond := fieldOr (jsOrOpt props.conditions_circulation props.conditionsCirculation) ""
    if ¬ (jsToUpperCase cond = "COUPÉE" ∨ jsToUpperCase cond = "INONDÉE PARTIELLE") then none
    else
      let typeCoupure := if jsToUpperCase cond = "INONDÉE PARTIELLE" then "Partielle" else "Totale"
      let lineaire := fieldOr (jsOrOpt props.lineaire_inonde props.lineaireInonde) ""
      let lineaireText :=
        if lineaire ≠ "" ∧ lineaire ≠ "0" ∧ lineaire ≠ "?" then
          "Longueur linéaire inondée : " ++ lineaire
        else ""
      let commentaire :=
        if jsToUpperCase cond = "INONDÉE PARTIELLE" then
          if lineaireText ≠ "" then "Inondation partielle. " ++ lineaireText
          else "Inondation partielle"
        else if lineaireText ≠ "" then lineaireText else ""
      some { geometry := geometry,
             properties := {
               id := uid,
               id_source := jsOrOpt props.OBJECTID props.objectid,
               source := "CD56",
               route := fieldOr props.rd "",
               commune := fieldOr props.commune "",
               cause := "Inondation",
               statut := "Actif",
               statut_actif := true,
               statut_resolu := false,
               type_coupure := typeCoupure,
               sens_circulation := "",
               commentaire := commentaire,
               date_debut := formatDateM fmt (jsOrOpt props.date_constatation props.dateConstatation),
               date_fin := formatDateM fmt
                 (jsOrOpt props.Date_fin_d_evenement (jsOrOpt props.date_fin_evenement props.dateFin)),
               date_saisie := formatDateM fmt (jsOrOpt props.date_constatation props.dateConstatation),
               date_suppression := "",
               gestionnaire := "CD56",
               agence := "", pr_debut := "", pr_fin := "" } }

/-- Properties of one DIRO (DATEX II) feature. -/
structure DIROProps where
  id : Option String := none
  is_active : Option Bool := none
  severity : Option String := none
  description : Option String := none
  subtype : Option String := none
  road : Option String := none
  start_date : Option String := none
  end_date : Option String := none
deriving DecidableEq

/-- One DIRO feature. -/
structure DIROFeature where
  geometry : Option Geometry := none
  properties : Option DIROProps := none
deriving DecidableEq

/-- The severity dictionary of `diroToFeature`, with the
`|| props.severity || ''` fallback folded in. -/
def diroSeverityText : Option String → String
  | some "low" => "Faible"
  | some "medium" => "Moyenne"
  | some "high" => "Élevée"
  | some "veryHigh" => "Très élevée"
  | some s => s
  | none => ""

/-- `diroToFeature(feature)`. -/
def diroToFeature (fmt : String → String) (uid : Nat) (feature : DIROFeature) : Option Feature :=
  match feature.geometry with
  | none => none
  | some geometry =>
    let props := feature.properties.getD {}
    let isActif := props.is_active == some true
    let isResolu := props.is_active == some false
    let statut := if isActif then "Actif" else "Résolu"
    let severityText := diroSeverityText props.severity
    let commentaire := String.intercalate " | "
      (([fieldOr props.description "",
         if severityText ≠ "" then "Sévérité: " ++ severityText else "",
         match props.subtype with
         | some s => if s ≠ "" then "Type: " ++ s else ""
         | none => ""]).filter (fun s => s ≠ ""))
    some { geometry := geometry,
           properties := {
             id := uid,
             id_source := jsOrNull props.id,
             source := "DIRO",
             route := fieldOr props.road "",
             commune := "",
             cause := "Inondation",
             statut := statut,
             statut_actif := isActif,
             statut_resolu := isResolu,
             type_coupure := "Totale",
             sens_circulation := "",
             commentaire := commentaire,
             date_debut := formatDateM fmt props.start_date,
             date_fin := formatDateM fmt props.end_date,
             date_saisie := formatDateM fmt props.start_date,
             date_suppression := "",
             gestionnaire := "DIRO - DIR Ouest",
             agence := "", pr_debut := "", pr_fin := "" } }

/-- One failure of the kinds the claims name for an HTTP fetch: a network
error (socket `error` event / rejected `fetch`), a non-2xx HTTP status, or a
body parse error. -/
inductive FetchFailure where
  | networkError (msg : String)
  | httpError (code : Nat)
  | parseError
deriving DecidableEq

/-- What the wire yields to one HTTP fetcher on its call: a successfully
parsed body, or one of the failures above. -/
inductive WireResult (α : Type) where
  | success (data : α)
  | failure (f : FetchFailure)
deriving DecidableEq

/-- What the filesystem yields to the DIRO file reader: the parsed file, a
missing file, or an unparseable one. -/
inductive FileResult (α : Type) where
  | present (data : α)
  | missing
  | corrupt
deriving DecidableEq

/-- One per-source record of the flux monitor. -/
structure HealthRecord where
  source : String
  status : String
  records : Nat
  responseTime : Int
  lastError : Option String
  lastSuccess : Option String
  message : Option String
deriving DecidableEq

/-- The health record `monitorFetch` stores for a source whose fetch resolved
with `n` records (`rt` is the measured response time, `nowLocal` the
`getDateTimeFR().local` timestamp).  This is the wrapper's only live path:
each of the six fetchers catches its own network/HTTP/parse failures and
resolves (never rejects), so `monitorFetch`'s `catch` branch — the only
producer of status `ERROR` — is unreachable through them. -/
def monitorRecordOfCount (sourceName : String) (n : Nat) (rt : Int) (nowLocal : String) :
    HealthRecord :=
  if n = 0 then
    { source := sourceName, status := "EMPTY", records := 0, responseTime := rt,
      lastError := none, lastSuccess := none,
      message := some "API accessible mais 0 résultats" }
  else
    { source := sourceName, status := "OK", records := n, responseTime := rt,
      lastError := none, lastSuccess := some nowLocal,
      message := some (toString n ++ " signalement(s) récupéré(s)") }

/-- The `{ features, needsConversion }` object returned by the Rennes
Métropole fetcher (`monitorFetch` counts `data.features.length` for it via
its `'features' in data` special case). -/
structure RennesResult where
  features : List RMFeature
  needsConversion : Bool
deriving DecidableEq

/-- `fetchGristData()`: resolves the records on success; every failure path
— missing credentials, HTTP status ≠ 200, parse error, socket `error`
event, outer exception — resolves the empty list.  The promise never
rejects. -/
def fetchGristData : WireResult (List GristRecord) → List GristRecord
  | .success records => records
  | .failure _ => []

/-- `fetchCD44Data()`: resolves `response.results` on success; HTTP status ≠
200, parse error and socket error all resolve the empty list. -/
def fetchCD44Data : WireResult (List CD44Item) → List CD44Item
  | .success records => records
  | .failure _ => []

/-- First `x` coordinate probed by the Rennes Métropole projection check
(`coordinates[0]`, `coordinates[0][0]`, `coordinates[0][0][0]` by geometry
type; other geometry types, and empty coordinate arrays, yield no probe). -/
def rmTestCoord : Geometry → Option Int
  | .point (x, _) => some x
  | .lineString ((x, _) :: _) => some x
  | .lineString [] => none
  | .multiLineString (((x, _) :: _) :: _) => some x
  | .multiLineString _ => none
  | .polygon _ => none

/-- The `raison = "inondation"` filter of the Rennes Métropole fetcher
(`(feature.properties?.raison || '').toLowerCase() === 'inondation'`). -/
def rmRaisonIsInondation (f : RMFeature) : Bool :=
  jsToLowerCase (fieldOr (f.properties.getD {}).raison "") == "inondation"

/-- `fetchRennesMetroData()`: on success, keep only the `inondation`
features and probe the first kept geometry's first coordinate to decide
whether a CC48 → WGS84 conversion is needed (`testCoord` truthy and
`Math.abs(testCoord) > 1000`); every failure — non-ok HTTP status, parse
error, network error — resolves `{ features: [], needsConversion: false }`
through its own `catch`. -/
def fetchRennesMetroData : WireResult (List RMFeature) → RennesResult
  | .failure _ => { features := [], needsConversion := false }
  | .success features =>
    let filtered := features.filter rmRaisonIsInondation
    let needsConversion :=
      match filtered with
      | [] => false
      | f :: _ =>
        match f.geometry with
        | none => false
        | some g =>
          match rmTestCoord g with
          | none => false
          | some x => x != 0 && decide (1000 < x.natAbs)
    { features := filtered, needsConversion := needsConversion }

/-- `fetchCD35InondationsData()`: two OGC requests (collections, then
items); success resolves the items' features, and every failure — non-ok
status on either request, empty collections list, parse error, network
error — resolves the empty list. -/
def fetchCD35InondationsData : WireResult (List CD35Feature) → List CD35Feature
  | .success features => features
  | .failure _ => []

/-- `fetchCD56Data()`: the same two-request OGC flow and failure handling as
CD35. -/
def fetchCD56Data : WireResult (List CD56Feature) → List CD56Feature
  | .success features => features
  | .failure _ => []

/-- `fetchDiroData()`: reads the locally produced GeoJSON file; a missing or
unparseable file resolves the empty list, a parsed file is filtered to the
features with `is_active === true`.  (A feature carrying no `properties`
object would make the source's filter throw and its `catch` resolve `[]`;
no claim involves such a record.) -/
def fetchDiroData : FileResult (List DIROFeature) → List DIROFeature
  | .present features =>
    features.filter (fun f =>
      match f.properties with
      | some p => p.is_active == some true
      | none => false)
  | .missing => []
  | .corrupt => []

/-- The `fluxMonitor` object after all six `monitorFetch` calls. -/
structure FluxMonitor where
  grist_35 : Option HealthRecord
  cd44 : Option HealthRecord
  rennes_metropole : Option HealthRecord
  cd35_inondations : Option HealthRecord
  cd56 : Option HealthRecord
  diro : Option HealthRecord
deriving DecidableEq

/-- The `summary` accumulation of `generateFluxStatus` and of the
`flux_monitoring` block of `mergeSources` (counts of `OK`/`EMPTY`/`ERROR`
records among the non-null monitor slots). -/
def fluxSummary (records : List (Option HealthRecord)) : Nat × Nat × Nat :=
  records.foldl
    (fun acc s =>
      match s with
      | some st =>
        if st.status == "OK" then (acc.1 + 1, acc.2.1, acc.2.2)
        else if st.status == "EMPTY" then (acc.1, acc.2.1 + 1, acc.2.2)
        else if st.status == "ERROR" then (acc.1, acc.2.1, acc.2.2 + 1)
        else acc
      | none => acc)
    (0, 0, 0)

/-- The global status reduction: `CRITICAL` when any error, else `DEGRADED`
when any empty source, else `OK`. -/
def globalStatusOf (records : List (Option HealthRecord)) : String :=
  let summary := fluxSummary records
  if summary.2.2 > 0 then "CRITICAL"
  else if summary.2.1 > 0 then "DEGRADED"
  else "OK"

/-- Environment of one run: the quantities read from the clock, the
filesystem and the projection library (all outside the core per the
specification). -/
structure Env where
  fmt : String → String
  conv : Coord → Coord
  nowMs : Int
  nowLocal : String
  nowISO : String
  rtGrist : Int
  rtCd44 : Int
  rtRennes : Int
  rtCd35 : Int
  rtCd56 : Int
  rtDiro : Int

/-- Wire/filesystem outcomes of the six adapter fetches of one run. -/
structure WireInputs where
  grist : WireResult (List GristRecord)
  cd44 : WireResult (List CD44Item)
  rennes : WireResult (List RMFeature)
  cd35 : WireResult (List CD35Feature)
  cd56 : WireResult (List CD56Feature)
  diro : FileResult (List DIROFeature)

/-- One `records.forEach` block of `mergeSources`: convert each record (the
conversion consumes one unique id exactly when it succeeds) and keep the
features accepted by the lifecycle filter. -/
def convertAndFilter (convF : Nat → α → Option Feature) (nowMs : Int) (rs : List α)
    (acc : List Feature × Nat) : List Feature × Nat :=
  rs.foldl
    (fun a r =>
      match convF a.2 r with
      | none => a
      | some f =>
        (if (shouldKeepFeature nowMs f).keep then a.1 ++ [f] else a.1, a.2 + 1))
    acc

/-- The published feature list of one run: the six sources converted and
filtered in the order of `mergeSources`, the unique-id counter starting
at 1. -/
def mergeFeatures (env : Env) (grist : List GristRecord) (cd44 : List CD44Item)
    (rm : RennesResult) (cd35 : List CD35Feature) (cd56 : List CD56Feature)
    (diro : List DIROFeature) : List Feature :=
  let a1 := convertAndFilter (fun uid r => gristToFeature env.fmt uid r) env.nowMs grist ([], 1)
  let a2 := convertAndFilter (fun uid r => cd44ToFeature env.fmt uid r) env.nowMs cd44 a1
  let a3 := convertAndFilter
    (fun uid r => rennesMetroToFeature env.fmt env.conv rm.needsConversion uid r)
    env.nowMs rm.features a2
  let a4 := convertAndFilter (fun uid r => cd35InondationsToFeature env.nowISO uid r)
    env.nowMs cd35 a3
  let a5 := convertAndFilter (fun uid r => cd56ToFeature env.fmt uid r) env.nowMs cd56 a4
  let a6 := convertAndFilter (fun uid r => diroToFeature env.fmt uid r) env.nowMs diro a5
  a6.1

/-- Output of one run relevant to the claims: the published features and the
flux monitor records. -/
structure RunOutput where
  features : List Feature
  flux : FluxMonitor

/-- The data-flow of `mergeSources`: each adapter fetch, wrapped by
`monitorFetch`, resolves through its own failure handling (every fetcher
catches network/HTTP/parse failures and resolves an empty result, so the
`await` always succeeds and the wrapper takes its success path), then
conversion, lifecycle filtering and the flux monitor are computed as in the
source.  A failing adapter never rejects, so it never stops the other
adapters nor aborts the run. -/
def mergePipeline (env : Env) (w : WireInputs) : RunOutput :=
  let gristRecords := fetchGristData w.grist
  let cd44Records := fetchCD44Data w.cd44
  let rennesResult := fetchRennesMetroData w.rennes
  let cd35Features := fetchCD35InondationsData w.cd35
  let cd56Features := fetchCD56Data w.cd56
  let diroFeatures := fetchDiroData w.diro
  { features :=
      mergeFeatures env gristRecords cd44Records rennesResult cd35Features cd56Features
        diroFeatures,
    flux :=
      { grist_35 := some (monitorRecordOfCount "grist_35" gristRecords.length env.rtGrist
          env.nowLocal),
        cd44 := some (monitorRecordOfCount "cd44" cd44Records.length env.rtCd44 env.nowLocal),
        rennes_metropole := some (monitorRecordOfCount "rennes_metropole"
          rennesResult.features.length env.rtRennes env.nowLocal),
        cd35_inondations := some (monitorRecordOfCount "cd35_inondations" cd35Features.length
          env.rtCd35 env.nowLocal),
        cd56 := some (monitorRecordOfCount "cd56" cd56Features.length env.rtCd56 env.nowLocal),
        diro := some (monitorRecordOfCount "diro" diroFeatures.length env.rtDiro
          env.nowLocal) } }

/-- `statut_actif && statut_resolu` of the feature produced by a converter
(`false` when the converter rejected the record). -/
def bothStatusFlags : Option Feature → Bool
  | some f => f.properties.statut_actif && f.properties.statut_resolu
  | none => false

/-- Test fixture: a feature with the given identity, status and dates (the
remaining fields are fixed arbitrary values). -/
def sampleFeature (idS : Option String) (src dd : String) (actif resolu : Bool)
    (fin comm : String) : Feature where
  geometry := .point (1, 2)
  properties :=
    { id := 1
      id_source := idS
      source := src
      route := "D1"
      commune := "Rennes"
      cause := "Inondation"
      statut := if actif then "Actif" else if resolu then "Résolu" else "Inconnu"
      statut_actif := actif
      statut_resolu := resolu
      type_coupure := "Totale"
      sens_circulation := ""
      commentaire := comm
      date_debut := dd
      date_fin := fin
      date_saisie := ""
      date_suppression := ""
      gestionnaire := ""
      agence := ""
      pr_debut := ""
      pr_fin := "" }

/-- Fixture for C1: a CD44-style report with a null `sourceId`. -/
def cd44NullIdReport : Feature :=
  sampleFeature none "CD44" "01/01/2025 à 10h00" true false "" "premier"

/-- Fixture for C1: the same CD44-style report re-observed with a new
comment. -/
def cd44NullIdReport2 : Feature :=
  sampleFeature none "CD44" "01/01/2025 à 10h00" true false "" "second"

/-- Fixture for C3: the archive entry already stored under `(X, 123)` with
start date D1. -/
def idReuseStore : Store :=
  [(2025, { features := [setSupp (sampleFeature (some "123") "X" "01/01/2025 à 00h00" true false "" "")] })]

/-- Fixture for C3: the report re-using id `123` with start date D2. -/
def idReuseReport : Feature :=
  sampleFeature (some "123") "X" "02/01/2025 à 08h00" true false "" ""

/-- Fixture for C2: first report under `(X, 77)`. -/
def reuseF1 : Feature :=
  sampleFeature (some "77") "X" "03/01/2025 à 00h00" true false "" "un"

/-- Fixture for C2: second report under `(X, 77)` with a different start
date. -/
def reuseF2 : Feature :=
  sampleFeature (some "77") "X" "04/01/2025 à 00h00" true false "" "deux"

/-- Fixture for C4: the evaluation instant, 10 January 2025 12:00 local. -/
def c4Now : Int := jsDateMs 2025 0 10 12 0

/-- Fixture for C4: an active report with an old `date_fin`. -/
def activeOldEnd : Feature :=
  sampleFeature (some "1") "CD56" "01/01/2025 à 00h00" true false "01/01/2020 à 00h00" ""

/-- Fixture for C4: a resolved report whose `date_fin` is exactly 72 hours
before `c4Now`. -/
def resolvedAt72h : Feature :=
  sampleFeature (some "2") "CD56" "01/01/2025 à 00h00" false true "07/01/2025 à 12h00" ""

/-- Fixture for C4: a resolved report whose `date_fin` is 3 days and one
minute before `c4Now`. -/
def resolvedAt72h1m : Feature :=
  sampleFeature (some "3") "CD56" "01/01/2025 à 00h00" false true "07/01/2025 à 11h59" ""

/-- Fixture for C5/C7: an archive entry still active under `(Y, 42)`. -/
def archActiveEntry : Feature :=
  setSupp (sampleFeature (some "42") "Y" "01/06/2025 à 00h00" true false "" "")

/-- Fixture for C5: a store whose 2025 partition holds the active entry. -/
def archActiveStore : Store := [(2025, { features := [archActiveEntry] })]

/-- Fixture for C5: the local instant of the detection run. -/
def c5Now : LocalNow := { year := 2025, month := 6, day := 15, hour := 10, minute := 30 }

/-- Fixture for C7: the incoming re-observation of the stored entry, now
resolved. -/
def incomingResolved : Feature :=
  sampleFeature (some "42") "Y" "01/06/2025 à 00h00" false true "02/06/2025 à 09h00" "màj"

/-- Fixture for C8: an `OK` health record. -/
def okRecord : HealthRecord :=
  { source := "cd56", status := "OK", records := 3, responseTime := 120,
    lastError := none, lastSuccess := some "x", message := none }

/-- Fixture for C8: an `EMPTY` health record. -/
def emptyRecord : HealthRecord :=
  { source := "cd44", status := "EMPTY", records := 0, responseTime := 80,
    lastError := none, lastSuccess := none, message := none }

/-- Fixture for C8: an `ERROR` health record. -/
def errorRecord : HealthRecord :=
  { source := "grist_35", status := "ERROR", records := 0, responseTime := 500,
    lastError := some "timeout", lastSuccess := none, message := none }

/-- Fixture for C10: a Rennes Métropole feature whose `etat` is neither
`en cours` nor `terminé`. -/
def rmUnknownEtat : RMFeature :=
  { geometry := some (.point (3, 4)),
    properties := some { etat := some "prévu", id := some "9" } }

/-- Fixture for C9: a run environment with identity date formatting and
projection. -/
def sampleEnv : Env :=
  { fmt := fun s => s, conv := fun c => c, nowMs := jsDateMs 2025 0 10 12 0,
    nowLocal := "10/01/2025 à 12h00", nowISO := "2025-01-10T11:00:00.000Z",
    rtGrist := 0, rtCd44 := 0, rtRennes := 0, rtCd35 := 0, rtCd56 := 0, rtDiro := 0 }

/-- Fixture for C9: one Grist record that normalizes to an active report. -/
def sampleGristRecord : GristRecord :=
  { id := some "5",
    fields := { geojson := some (some (.point (1, 2))), Statut := some "Actif",
                Route := some "D137" } }

/-- Fixture for C9: a run in which the CD44 fetch fails with an HTTP 500 on
its only call, while Grist succeeds with one record and the remaining
sources succeed with empty results. -/
def failedCd44Run : WireInputs :=
  { grist := .success [sampleGristRecord], cd44 := .failure (.httpError 500),
    rennes := .success [], cd35 := .success [], cd56 := .success [], diro := .missing }

theorem findIdxA_eq_none_iff (p : Feature → Bool) (l : List Feature) :
    findIdxA p l = none ↔ ∀ x ∈ l, p x = false := by
  induction l with
  | nil => simp [findIdxA]
  | cons hd tl ih =>
    by_cases h : p hd <;> simp [findIdxA, h, ih]

theorem findIdxA_append_of_none (p : Feature → Bool) (l₁ l₂ : List Feature)
    (h : findIdxA p l₁ = none) :
    findIdxA p (l₁ ++ l₂) = (findIdxA p l₂).map (· + l₁.length) := by
  induction l₁ with
  | nil => simp [Option.map_id']
  | cons hd tl ih =>
    by_cases hp : p hd
    · simp [findIdxA, hp] at h
    · simp [findIdxA, hp] at h ⊢
      rw [ih h]
      cases findIdxA p l₂
      · simp
      · simp
        omega

theorem findIdxA_mid (p : Feature → Bool) (l₁ l₂ : List Feature) (e : Feature)
    (h₁ : findIdxA p l₁ = none) (he : p e = true) :
    findIdxA p (l₁ ++ e :: l₂) = some l₁.length := by
  rw [findIdxA_append_of_none p l₁ (e :: l₂) h₁]
  simp [findIdxA, he]

theorem findIdxA_spec (p : Feature → Bool) (l : List Feature) (i : Nat)
    (h : findIdxA p l = some i) :
    ∃ l₁ e l₂, l = l₁ ++ e :: l₂ ∧ l₁.length = i ∧ findIdxA p l₁ = none ∧ p e = true := by
  induction l generalizing i with
  | nil => simp [findIdxA] at h
  | cons hd tl ih =>
    by_cases hp : p hd
    · simp [findIdxA, hp] at h
      exact ⟨[], hd, tl, by simp, by simp [← h], by simp [findIdxA], hp⟩
    · simp [findIdxA, hp] at h
      obtain ⟨j, hj, rfl⟩ := h
      obtain ⟨l₁, e, l₂, rfl, hlen, hnone, hpe⟩ := ih j hj
      exact ⟨hd :: l₁, e, l₂, by simp, by simp [hlen], by simp [findIdxA, hp, hnone], hpe⟩

theorem set_append_length (l₁ l₂ : List Feature) (e u : Feature) :
    (l₁ ++ e :: l₂).set l₁.length u = l₁ ++ u :: l₂ := by
  induction l₁ with
  | nil => simp
  | cons hd tl ih => simp [List.set, ih]

theorem getElem?_append_length (l₁ l₂ : List Feature) (e : Feature) :
    (l₁ ++ e :: l₂)[l₁.length]? = some e := by
  induction l₁ with
  | nil => simp
  | cons hd tl ih => simpa using ih

theorem loadArchive_saveArchive (store : Store) (y : Nat) (a : Archive) :
    loadArchive (saveArchive store y a) y = a := by
  induction store with
  | nil => simp [saveArchive, loadArchive]
  | cons hd tl ih =>
    by_cases hh : hd.1 == y <;> simp [saveArchive, loadArchive, hh, ih]

theorem saveArchive_saveArchive (store : Store) (y : Nat) (a : Archive) :
    saveArchive (saveArchive store y a) y a = saveArchive store y a := by
  induction store with
  | nil => simp [saveArchive]
  | cons hd tl ih =>
    by_cases hh : hd.1 == y <;> simp [saveArchive, hh, ih]

theorem setSupp_id_source (f : Feature) : (setSupp f).properties.id_source = f.properties.id_source := rfl

theorem setSupp_source (f : Feature) : (setSupp f).properties.source = f.properties.source := rfl

theorem setSupp_date_debut (f : Feature) : (setSupp f).properties.date_debut = f.properties.date_debut := rfl

theorem matchesIdSource_self (f : Feature) :
    matchesIdSource f.properties.id_source f.properties.source f = true := by
  simp [matchesIdSource]

theorem updateExisting_id_source (e f : Feature) :
    (updateExisting e f).properties.id_source = e.properties.id_source := by
  unfold updateExisting
  by_cases h : (!e.properties.statut_resolu &&
      (f.properties.statut_resolu && (f.properties.date_fin != ""))) <;> simp [h]

theorem updateExisting_source (e f : Feature) :
    (updateExisting e f).properties.source = e.properties.source := by
  unfold updateExisting
  by_cases h : (!e.properties.statut_resolu &&
      (f.properties.statut_resolu && (f.properties.date_fin != ""))) <;> simp [h]

theorem updateExisting_date_debut (e f : Feature) :
    (updateExisting e f).properties.date_debut = e.properties.date_debut := by
  unfold updateExisting
  by_cases h : (!e.properties.statut_resolu &&
      (f.properties.statut_resolu && (f.properties.date_fin != ""))) <;> simp [h]

theorem updateExisting_matches (idS : Option String) (src : String) (e f : Feature) :
    matchesIdSource idS src (updateExisting e f) = matchesIdSource idS src e := by
  simp [matchesIdSource, updateExisting_id_source, updateExisting_source]

theorem updateExisting_setSupp (f : Feature) : updateExisting (setSupp f) f = setSupp f := by
  unfold updateExisting setSupp
  by_cases h : f.properties.statut_resolu <;> simp [h]

theorem updateExisting_idem (e f : Feature) :
    updateExisting (updateExisting e f) f = updateExisting e f := by
  unfold updateExisting
  by_cases h : (!e.properties.statut_resolu &&
      (f.properties.statut_resolu && (f.properties.date_fin != ""))) <;> simp [h]

theorem addOrUpdate_skip_none (store : Store) (f : Feature)
    (h : getYearFromDateDebut f.properties.date_debut = none) :
    addOrUpdateInArchive store f = store := by
  simp [addOrUpdateInArchive, h]

theorem addOrUpdate_skip_zero (store : Store) (f : Feature)
    (h : getYearFromDateDebut f.properties.date_debut = some 0) :
    addOrUpdateInArchive store f = store := by
  simp [addOrUpdateInArchive, h]

theorem addOrUpdate_append (store : Store) (f : Feature) (y : Nat)
    (hy : getYearFromDateDebut f.properties.date_debut = some y) (h0 : y ≠ 0)
    (hfind : findInArchive (loadArchive store y) f.properties.id_source f.properties.source = none) :
    addOrUpdateInArchive store f =
      saveArchive store y { features := (loadArchive store y).features ++ [setSupp f] } := by
  simp [addOrUpdateInArchive, hy, h0, hfind]

theorem addOrUpdate_reuse (store : Store) (f : Feature) (y i : Nat) (e : Feature)
    (hy : getYearFromDateDebut f.properties.date_debut = some y) (h0 : y ≠ 0)
    (hfind : findInArchive (loadArchive store y) f.properties.id_source f.properties.source = some i)
    (he : (loadArchive store y).features[i]? = some e)
    (hne : e.properties.date_debut ≠ f.properties.date_debut) :
    addOrUpdateInArchive store f =
      saveArchive store y { features := (loadArchive store y).features ++ [setSupp f] } := by
  have hbne : (e.properties.date_debut != f.properties.date_debut) = true := bne_iff_ne.mpr hne
  simp [addOrUpdateInArchive, hy, h0, hfind, he, hbne]

theorem addOrUpdate_update (store : Store) (f : Feature) (y i : Nat) (e : Feature)
    (hy : getYearFromDateDebut f.properties.date_debut = some y) (h0 : y ≠ 0)
    (hfind : findInArchive (loadArchive store y) f.properties.id_source f.properties.source = some i)
    (he : (loadArchive store y).features[i]? = some e)
    (heq : e.properties.date_debut = f.properties.date_debut) :
    addOrUpdateInArchive store f =
      saveArchive store y
        { features := (loadArchive store y).features.set i (updateExisting e f) } := by
  have hbne : (e.properties.date_debut != f.properties.date_debut) = false := by
    simp [heq]
  simp [addOrUpdateInArchive, hy, h0, hfind, he, hbne]

/-- Claim C1, amended (the source does not skip null-`sourceId` reports):
archival is skipped exactly when `startDate` yields no usable year (no
`DD/MM/YYYY` pattern, or the falsy year `0`); a report whose `sourceId` is
null and whose `startDate` parses is archived like any other report — when
no entry matches `(source, null)` it is appended to its year partition. -/
theorem c1_null_sourceId_archival : ∀ (store : Store) (f : Feature),
    ((getYearFromDateDebut f.properties.date_debut = none ∨
      getYearFromDateDebut f.properties.date_debut = some 0) →
      addOrUpdateInArchive store f = store) ∧
    (∀ y : Nat, f.properties.id_source = none →
      getYearFromDateDebut f.properties.date_debut = some y → y ≠ 0 →
      findInArchive (loadArchive store y) none f.properties.source = none →
      loadArchive (addOrUpdateInArchive store f) y =
        { features := (loadArchive store y).features ++ [setSupp f] }) := by
  intro store f
  constructor
  · rintro (h | h)
    · exact addOrUpdate_skip_none store f h
    · exact addOrUpdate_skip_zero store f h
  · intro y hid hy h0 hfind
    have hfind' : findInArchive (loadArchive store y) f.properties.id_source
        f.properties.source = none := by rw [hid]; exact hfind
    rw [addOrUpdate_append store f y hy h0 hfind', loadArchive_saveArchive]

/-- Claim C1, witness: the concrete CD44 report (null `sourceId`, start date
in 2025) is appended to the 2025 partition of an empty store. -/
theorem c1_null_sourceId_archival_witness :
    loadArchive (addOrUpdateInArchive [] cd44NullIdReport) 2025 =
      { features := [setSupp cd44NullIdReport] } := by
  have h := (c1_null_sourceId_archival [] cd44NullIdReport).2 2025 rfl (by decide)
    (by decide) (by decide)
  simpa [loadArchive] using h

/-- Claim C1, counterexample: upserting a report with a null `sourceId` does
not skip archival — it modifies the year partition (appending on first
sight), and a second null-`sourceId` report with the same start date is
matched against the stored entry and updates it in place. -/
theorem c1_null_sourceId_archival_counterexample :
    cd44NullIdReport.properties.id_source = none ∧
    addOrUpdateInArchive [] cd44NullIdReport ≠ ([] : Store) ∧
    (loadArchive (addOrUpdateInArchive [] cd44NullIdReport) 2025).features.length = 1 ∧
    (loadArchive (addOrUpdateInArchive (addOrUpdateInArchive [] cd44NullIdReport)
        cd44NullIdReport2) 2025).features
      = [updateExisting (setSupp cd44NullIdReport) cd44NullIdReport2] := by
  refine ⟨rfl, by decide, by decide, by decide⟩

/-- Claim C6 (confirmed): on a first-ever run (no persisted snapshot, so the
loaded snapshot has a null date) deletion detection mutates no archive
partition and marks nothing deleted — its only effect is saving the snapshot
of the currently-active pairs. -/
theorem c6_first_run_only_saves_snapshot :
    ∀ (now : LocalNow) (nowISO : String) (fs : List Feature) (store : Store)
      (actifs : List (String × List String)),
      detectDeletedSignalements now nowISO fs ⟨store, ⟨none, actifs⟩⟩ =
        ⟨store, ⟨some nowISO, buildCurrentActifs fs⟩⟩ := by
  intro now nowISO fs store actifs
  simp [detectDeletedSignalements, optTruthy]

theorem fluxSummary_foldl_eq (l : List (Option HealthRecord)) :
    ∀ a b c : Nat,
      l.foldl
        (fun acc s =>
          match s with
          | some st =>
            if st.status == "OK" then (acc.1 + 1, acc.2.1, acc.2.2)
            else if st.status == "EMPTY" then (acc.1, acc.2.1 + 1, acc.2.2)
            else if st.status == "ERROR" then (acc.1, acc.2.1, acc.2.2 + 1)
            else acc
          | none => acc)
        (a, b, c) =
      (a + l.countP (fun o => match o with | some r => r.status == "OK" | none => false),
       b + l.countP (fun o => match o with | some r => r.status == "EMPTY" | none => false),
       c + l.countP (fun o => match o with | some r => r.status == "ERROR" | none => false)) := by
  induction l with
  | nil => intro a b c; simp
  | cons hd tl ih =>
    intro a b c
    simp only [List.foldl_cons, List.countP_cons]
    cases hd with
    | none =>
      rw [ih]
      simp
    | some st =>
      by_cases h1 : st.status = "OK"
      · have hb : (st.status == "OK") = true := by simp [h1]
        simp only [hb, if_true]
        rw [ih]
        simp [h1]
        omega
      · by_cases h2 : st.status = "EMPTY"
        · have hb1 : (st.status == "OK") = false := by simp [h1]
          have hb : (st.status == "EMPTY") = true := by simp [h2]
          simp only [hb1, hb, if_true, if_false, Bool.false_eq_true]
          rw [ih]
          simp [h1, h2]
          omega
        · by_cases h3 : st.status = "ERROR"
          · have hb1 : (st.status == "OK") = false := by simp [h1]
            have hb2 : (st.status == "EMPTY") = false := by simp [h2]
            have hb : (st.status == "ERROR") = true := by simp [h3]
            simp only [hb1, hb2, hb, if_true, if_false, Bool.false_eq_true]
            rw [ih]
            simp [h1, h2, h3]
            omega
          · have hb1 : (st.status == "OK") = false := by simp [h1]
            have hb2 : (st.status == "EMPTY") = false := by simp [h2]
            have hb3 : (st.status == "ERROR") = false := by simp [h3]
            simp only [hb1, hb2, hb3, if_false, Bool.false_eq_true]
            rw [ih]
            simp [h1, h2, h3]

theorem fluxSummary_eq_countP (l : List (Option HealthRecord)) :
    fluxSummary l =
      (l.countP (fun o => match o with | some r => r.status == "OK" | none => false),
       l.countP (fun o => match o with | some r => r.status == "EMPTY" | none => false),
       l.countP (fun o => match o with | some r => r.status == "ERROR" | none => false)) := by
  unfold fluxSummary
  rw [fluxSummary_foldl_eq l 0 0 0]
  simp

theorem countP_status_pos_iff (l : List (Option HealthRecord)) (s : String) :
    0 < l.countP (fun o => match o with | some r => r.status == s | none => false) ↔
      ∃ r : HealthRecord, some r ∈ l ∧ r.status = s := by
  rw [List.countP_pos_iff]
  constructor
  · rintro ⟨o, ho, hp⟩
    cases o with
    | none => simp at hp
    | some r => exact ⟨r, ho, by simpa using hp⟩
  · rintro ⟨r, hr, hs⟩
    exact ⟨some r, hr, by simpa using hs⟩

/-- Claim C8 (confirmed): the aggregated `globalStatus` is `CRITICAL` iff
some source record has status `ERROR`; otherwise `DEGRADED` iff some source
record has status `EMPTY`; otherwise `OK` — and on the concrete status sets
of the claim, `(OK, EMPTY, OK)` aggregates to `DEGRADED` and
`(OK, ERROR, EMPTY)` to `CRITICAL`. -/
theorem c8_health_aggregation : ∀ records : List (Option HealthRecord),
    (globalStatusOf records = "CRITICAL" ↔
      ∃ r : HealthRecord, some r ∈ records ∧ r.status = "ERROR") ∧
    (globalStatusOf records = "DEGRADED" ↔
      (¬ (∃ r : HealthRecord, some r ∈ records ∧ r.status = "ERROR") ∧
        ∃ r : HealthRecord, some r ∈ records ∧ r.status = "EMPTY")) ∧
    (globalStatusOf records = "OK" ↔
      (¬ (∃ r : HealthRecord, some r ∈ records ∧ r.status = "ERROR") ∧
        ¬ (∃ r : HealthRecord, some r ∈ records ∧ r.status = "EMPTY"))) ∧
    globalStatusOf [some okRecord, some emptyRecord, some okRecord] = "DEGRADED" ∧
    globalStatusOf [some okRecord, some errorRecord, some emptyRecord] = "CRITICAL" := by
  intro records
  have key : ∀ s : String,
      0 < (fluxSummary records).2.2 ↔
        ∃ r : HealthRecord, some r ∈ records ∧ r.status = "ERROR" := by
    intro _
    rw [fluxSummary_eq_countP]
    exact countP_status_pos_iff records "ERROR"
  have keyErr : 0 < (fluxSummary records).2.2 ↔
      ∃ r : HealthRecord, some r ∈ records ∧ r.status = "ERROR" := key ""
  have keyEmpty : 0 < (fluxSummary records).2.1 ↔
      ∃ r : HealthRecord, some r ∈ records ∧ r.status = "EMPTY" := by
    rw [fluxSummary_eq_countP]
    exact countP_status_pos_iff records "EMPTY"
  refine ⟨?_, ?_, ?_, by decide, by decide⟩
  · unfold globalStatusOf
    by_cases he : 0 < (fluxSummary records).2.2
    · simp only [he, if_true, gt_iff_lt]
      simp [keyErr.mp he, he]
    · simp only [gt_iff_lt, he, if_false]
      rw [← keyErr]
      constructor
      · intro h
        by_cases hm : 0 < (fluxSummary records).2.1 <;> simp [hm] at h
      · intro h
        exact absurd h he
  · unfold globalStatusOf
    by_cases he : 0 < (fluxSummary records).2.2
    · simp only [gt_iff_lt, he, if_true]
      constructor
      · intro h; simp at h
      · rintro ⟨hne, -⟩
        exact absurd (keyErr.mp he) hne
    · simp only [gt_iff_lt, he, if_false]
      rw [← keyErr, ← keyEmpty]
      by_cases hm : 0 < (fluxSummary records).2.1 <;> simp [hm, he]
  · unfold globalStatusOf
    by_cases he : 0 < (fluxSummary records).2.2
    · simp only [gt_iff_lt, he, if_true]
      constructor
      · intro h; simp at h
      · rintro ⟨hne, -⟩
        exact absurd (keyErr.mp he) hne
    · simp only [gt_iff_lt, he, if_false]
      rw [← keyErr, ← keyEmpty]
      by_cases hm : 0 < (fluxSummary records).2.1 <;> simp [hm, he]

/-- Claim C9 (code bug): the six fetchers catch the claim's failure modes
(network error, HTTP error status, parse error) internally and resolve an
empty result, so `monitorFetch` takes its success path and the health record
of a source whose every call fails is `EMPTY` — message
"API accessible mais 0 résultats" — never `ERROR`, contradicting the
repository readme's own status table (`ERROR` = HTTP 503, timeout, parse
error) and the evident purpose of `monitorFetch`'s `catch` branch.  The
isolation half of the claim does hold: over all runs, a source failing on
the wire publishes exactly the features of the run in which it succeeds with
zero records, and the run never aborts.  The closing conjuncts evaluate the
pipeline at the concrete failing input: the CD44 record is `EMPTY` (its
full, misleading record shown), not `ERROR`, while the succeeding Grist
adapter's report is still published. -/
theorem c9_fetch_failure_divergence :
    (∀ (env : Env) (w : WireInputs) (fail : FetchFailure),
      ((mergePipeline env { w with grist := .failure fail }).features =
          (mergePipeline env { w with grist := .success [] }).features ∧
        ((mergePipeline env { w with grist := .failure fail }).flux.grist_35.map
          (fun r => r.status)) = some "EMPTY") ∧
      ((mergePipeline env { w with cd44 := .failure fail }).features =
          (mergePipeline env { w with cd44 := .success [] }).features ∧
        ((mergePipeline env { w with cd44 := .failure fail }).flux.cd44.map
          (fun r => r.status)) = some "EMPTY") ∧
      ((mergePipeline env { w with rennes := .failure fail }).features =
          (mergePipeline env { w with rennes := .success [] }).features ∧
        ((mergePipeline env { w with rennes := .failure fail }).flux.rennes_metropole.map
          (fun r => r.status)) = some "EMPTY") ∧
      ((mergePipeline env { w with cd35 := .failure fail }).features =
          (mergePipeline env { w with cd35 := .success [] }).features ∧
        ((mergePipeline env { w with cd35 := .failure fail }).flux.cd35_inondations.map
          (fun r => r.status)) = some "EMPTY") ∧
      ((mergePipeline env { w with cd56 := .failure fail }).features =
          (mergePipeline env { w with cd56 := .success [] }).features ∧
        ((mergePipeline env { w with cd56 := .failure fail }).flux.cd56.map
          (fun r => r.status)) = some "EMPTY") ∧
      ((mergePipeline env { w with diro := .missing }).features =
          (mergePipeline env { w with diro := .present [] }).features ∧
        ((mergePipeline env { w with diro := .missing }).flux.diro.map
          (fun r => r.status)) = some "EMPTY" ∧
        (mergePipeline env { w with diro := .corrupt }).features =
          (mergePipeline env { w with diro := .present [] }).features ∧
        ((mergePipeline env { w with diro := .corrupt }).flux.diro.map
          (fun r => r.status)) = some "EMPTY")) ∧
    (mergePipeline sampleEnv failedCd44Run).flux.cd44 =
      some { source := "cd44", status := "EMPTY", records := 0, responseTime := 0,
             lastError := none, lastSuccess := none,
             message := some "API accessible mais 0 résultats" } ∧
    ((mergePipeline sampleEnv failedCd44Run).flux.cd44.map (fun r => r.status))
      ≠ some "ERROR" ∧
    (mergePipeline sampleEnv failedCd44Run).features.length = 1 := by
  refine ⟨fun env w fail => ⟨⟨rfl, rfl⟩, ⟨rfl, rfl⟩, ⟨rfl, rfl⟩, ⟨rfl, rfl⟩, ⟨rfl, rfl⟩,
    ⟨rfl, rfl, rfl, rfl⟩⟩, rfl, by decide, by decide⟩

theorem beq_two_ne {α : Type} [BEq α] [LawfulBEq α] (s a b : α) (h : a ≠ b) :
    ((s == a) && (s == b)) = false := by
  by_cases h1 : s == a
  · have hsa : s = a := eq_of_beq h1
    subst hsa
    have h2 : (s == b) = false := beq_eq_false_iff_ne.mpr h
    simp [h2]
  · simp [h1]

theorem beq_or_two_ne {α : Type} [BEq α] [LawfulBEq α] (s a b c : α)
    (hab : a ≠ b) (hac : a ≠ c) :
    ((s == a) && ((s == b) || (s == c))) = false := by
  by_cases h1 : s == a
  · have hsa : s = a := eq_of_beq h1
    subst hsa
    have h2 : (s == b) = false := beq_eq_false_iff_ne.mpr hab
    have h3 : (s == c) = false := beq_eq_false_iff_ne.mpr hac
    simp [h2, h3]
  · simp [h1]

/-- Claim C10, amended: no adapter ever produces a report that is both
active and resolved (for every raw record, of each of the six converters,
the two status booleans are never both true); the stronger exactly-one
invariant fails, since a converter can produce a report with both flags
false and no deletion mark (see the counterexample). -/
theorem c10_status_flags_never_both_true :
    ∀ (fmt : String → String) (conv : Coord → Coord) (nc : Bool) (nowISO : String) (uid : Nat)
      (g : GristRecord) (c : CD44Item) (rm : RMFeature) (c35 : CD35Feature)
      (c56 : CD56Feature) (d : DIROFeature),
      bothStatusFlags (gristToFeature fmt uid g) = false ∧
      bothStatusFlags (cd44ToFeature fmt uid c) = false ∧
      bothStatusFlags (rennesMetroToFeature fmt conv nc uid rm) = false ∧
      bothStatusFlags (cd35InondationsToFeature nowISO uid c35) = false ∧
      bothStatusFlags (cd56ToFeature fmt uid c56) = false ∧
      bothStatusFlags (diroToFeature fmt uid d) = false := by
  intro fmt conv nc nowISO uid g c rm c35 c56 d
  refine ⟨?_, ?_, ?_, ?_, ?_, ?_⟩
  · cases hg : g.fields.geojson with
    | some parsed =>
      cases parsed with
      | none => simp [gristToFeature, hg, bothStatusFlags]
      | some geo =>
        simp only [gristToFeature, hg, bothStatusFlags]
        exact beq_two_ne _ "Actif" "Résolu" (by decide)
    | none =>
      by_cases hll : (intTruthy g.fields.Latitude && intTruthy g.fields.Longitude) = true
      · simp only [gristToFeature, hg, hll, if_true, bothStatusFlags]
        exact beq_two_ne _ "Actif" "Résolu" (by decide)
      · simp [gristToFeature, hg, hll, bothStatusFlags]
  · by_cases ht : c.type ≠ some "Inondation" ∧ c.type ≠ some "inondation"
    · simp [cd44ToFeature, ht, bothStatusFlags]
    · simp [cd44ToFeature, ht, bothStatusFlags]
  · cases hrm : rm.geometry with
    | none => simp [rennesMetroToFeature, hrm, bothStatusFlags]
    | some g0 =>
      simp only [rennesMetroToFeature, hrm, bothStatusFlags]
      exact beq_or_two_ne _ "en cours" "terminé" "termine" (by decide) (by decide)
  · cases h35 : c35.geometry with
    | none => simp [cd35InondationsToFeature, h35, bothStatusFlags]
    | some g0 => simp [cd35InondationsToFeature, h35, bothStatusFlags]
  · cases h56 : c56.geometry with
    | none => simp [cd56ToFeature, h56, bothStatusFlags]
    | some g0 =>
      simp only [cd56ToFeature, h56]
      split
      · rfl
      · simp [bothStatusFlags]
  · cases hd' : d.geometry with
    | none => simp [diroToFeature, hd', bothStatusFlags]
    | some g0 =>
      simp only [diroToFeature, hd', bothStatusFlags]
      exact beq_two_ne _ (some true) (some false) (by decide)

/-- Claim C10, counterexample to the exactly-one invariant as stated: the
Rennes Métropole converter, on a record whose `etat` is `prévu`, produces a
report that is neither active, nor resolved, nor deleted (both status flags
false, no deletion date); moreover an archive update of an active stored
entry by a resolved re-observation leaves the stored `statut_actif` true
while setting `statut_resolu`, so the archived entry has both flags true. -/
theorem c10_status_flags_counterexample :
    ((rennesMetroToFeature (fun s => s) (fun c => c) false 1 rmUnknownEtat).map
      (fun f => (f.properties.statut, f.properties.statut_actif, f.properties.statut_resolu,
                 f.properties.date_suppression)))
      = some ("prévu", false, false, "") ∧
    ((updateExisting archActiveEntry incomingResolved).properties.statut_actif = true ∧
      (updateExisting archActiveEntry incomingResolved).properties.statut_resolu = true) := by
  refine ⟨by decide, by decide, by decide⟩

/-- Claim C4 (confirmed): the lifecycle filter keeps every active report
unconditionally; a resolved (non-active) report is kept iff its `date_fin`
is absent or parses to a local wall-clock instant at most 72 hours
(259200000 ms) before now — so an end date exactly 72 h old is still
published and one 3 days and 1 minute old is filtered. -/
theorem c4_lifecycle_filter : ∀ (nowMs : Int) (f : Feature),
    (f.properties.statut_actif = true → (shouldKeepFeature nowMs f).keep = true) ∧
    (f.properties.statut_actif = false → f.properties.statut_resolu = true →
      f.properties.date_fin = "" → (shouldKeepFeature nowMs f).keep = true) ∧
    (∀ d m y h n : Nat, f.properties.statut_actif = false →
      f.properties.statut_resolu = true →
      parseDateFR f.properties.date_fin = some (d, m, y, h, n) →
      ((shouldKeepFeature nowMs f).keep = true ↔
        nowMs - jsDateMs (y : Int) ((m : Int) - 1) (d : Int) (h : Int) (n : Int) ≤ 259200000)) := by
  intro nowMs f
  refine ⟨?_, ?_, ?_⟩
  · intro h
    simp [shouldKeepFeature, h]
  · intro ha hr hfin
    simp [shouldKeepFeature, ha, hr, hfin]
  · intro d m y h n ha hr hp
    have hne : f.properties.date_fin ≠ "" := by
      intro hempty
      have h0 : parseDateFR "" = none := rfl
      rw [hempty, h0] at hp
      exact Option.noConfusion hp
    have hb : (f.properties.date_fin != "") = true := bne_iff_ne.mpr hne
    have hio : isOlderThan3Days nowMs f.properties.date_fin =
        decide (nowMs - jsDateMs (y : Int) ((m : Int) - 1) (d : Int) (h : Int) (n : Int)
          > 259200000) := by
      unfold isOlderThan3Days
      rw [if_neg hne, hp]
    by_cases hgt : nowMs - jsDateMs (y : Int) ((m : Int) - 1) (d : Int) (h : Int) (n : Int)
        > 259200000
    · simp [shouldKeepFeature, ha, hr, hb, hio, hgt]
      omega
    · simp [shouldKeepFeature, ha, hr, hb, hio, hgt]
      omega

/-- Claim C4, witness: at the concrete instant 10 January 2025 12:00, an
active report with an old end date is kept, a resolved report ending exactly
72 h earlier is kept, and a resolved report ending 3 days and one minute
earlier is dropped. -/
theorem c4_lifecycle_filter_witness :
    (shouldKeepFeature c4Now activeOldEnd).keep = true ∧
    (shouldKeepFeature c4Now resolvedAt72h).keep = true ∧
    (shouldKeepFeature c4Now resolvedAt72h1m).keep = false := by
  refine ⟨?_, ?_, ?_⟩
  · exact (c4_lifecycle_filter c4Now activeOldEnd).1 rfl
  · exact ((c4_lifecycle_filter c4Now resolvedAt72h).2.2 7 1 2025 12 0 rfl rfl
      (by decide)).mpr (by decide)
  · have hiff := (c4_lifecycle_filter c4Now resolvedAt72h1m).2.2 7 1 2025 11 59 rfl rfl
      (by decide)
    by_cases hk : (shouldKeepFeature c4Now resolvedAt72h1m).keep = true
    · exact absurd (hiff.mp hk) (by decide)
    · simpa using hk

/-- Claim C2 (confirmed): starting from a partition with no entry under the
shared `(source, sourceId)` pair, upserting a report with start date D1 and
then one with start date D2 ≠ D1 (both archived under year `y`) appends two
distinct entries: the partition afterwards is the old one followed by the
two stored copies (the first entry unchanged by the second upsert), and
exactly two entries match that `(source, sourceId)` pair. -/
theorem c2_id_reuse_two_entries : ∀ (store : Store) (f1 f2 : Feature) (y : Nat),
    f1.properties.id_source = f2.properties.id_source →
    f1.properties.source = f2.properties.source →
    getYearFromDateDebut f1.properties.date_debut = some y →
    getYearFromDateDebut f2.properties.date_debut = some y →
    y ≠ 0 →
    f1.properties.date_debut ≠ f2.properties.date_debut →
    findInArchive (loadArchive store y) f1.properties.id_source f1.properties.source = none →
    (loadArchive (addOrUpdateInArchive (addOrUpdateInArchive store f1) f2) y).features =
        (loadArchive store y).features ++ [setSupp f1, setSupp f2] ∧
    ((loadArchive (addOrUpdateInArchive (addOrUpdateInArchive store f1) f2) y).features.filter
        (matchesIdSource f2.properties.id_source f2.properties.source)).length = 2 := by
  intro store f1 f2 y hid hsrc hy1 hy2 h0 hne hfind
  have hstep1 : addOrUpdateInArchive store f1 =
      saveArchive store y { features := (loadArchive store y).features ++ [setSupp f1] } :=
    addOrUpdate_append store f1 y hy1 h0 hfind
  have hload1 : loadArchive (addOrUpdateInArchive store f1) y =
      { features := (loadArchive store y).features ++ [setSupp f1] } := by
    rw [hstep1, loadArchive_saveArchive]
  have hp2none : findIdxA (matchesIdSource f2.properties.id_source f2.properties.source)
      (loadArchive store y).features = none := by
    unfold findInArchive at hfind
    rw [hid, hsrc] at hfind
    exact hfind
  have hmatch1 : matchesIdSource f2.properties.id_source f2.properties.source (setSupp f1)
      = true := by
    simp [matchesIdSource, setSupp, hid, hsrc]
  have hmatch2 : matchesIdSource f2.properties.id_source f2.properties.source (setSupp f2)
      = true := by
    simp [matchesIdSource, setSupp]
  have hfind2 : findInArchive (loadArchive (addOrUpdateInArchive store f1) y)
      f2.properties.id_source f2.properties.source
      = some (loadArchive store y).features.length := by
    rw [hload1]
    unfold findInArchive
    exact findIdxA_mid _ _ [] (setSupp f1) hp2none hmatch1
  have hget2 : (loadArchive (addOrUpdateInArchive store f1) y).features[
      (loadArchive store y).features.length]? = some (setSupp f1) := by
    rw [hload1]
    exact getElem?_append_length _ [] (setSupp f1)
  have hne2 : (setSupp f1).properties.date_debut ≠ f2.properties.date_debut := by
    rw [setSupp_date_debut]
    exact hne
  have hstep2 := addOrUpdate_reuse (addOrUpdateInArchive store f1) f2 y
    (loadArchive store y).features.length (setSupp f1) hy2 h0 hfind2 hget2 hne2
  rw [hload1] at hstep2
  constructor
  · rw [hstep2, loadArchive_saveArchive]
    simp
  · rw [hstep2, loadArchive_saveArchive]
    have hfilter0 : (loadArchive store y).features.filter
        (matchesIdSource f2.properties.id_source f2.properties.source) = [] := by
      rw [List.filter_eq_nil_iff]
      intro x hx
      have := (findIdxA_eq_none_iff _ _).mp hp2none x hx
      simp [this]
    simp [List.filter_append, hfilter0, hmatch1, hmatch2]

/-- Claim C2, witness: concrete two-upsert run with reused id `77` on an
empty store. -/
theorem c2_id_reuse_two_entries_witness :
    (loadArchive (addOrUpdateInArchive (addOrUpdateInArchive [] reuseF1) reuseF2) 2025).features
      = [setSupp reuseF1, setSupp reuseF2] := by
  have h := (c2_id_reuse_two_entries [] reuseF1 reuseF2 2025 rfl rfl (by decide) (by decide)
    (by decide) (by decide) (by decide)).1
  simpa [loadArchive] using h

/-- Claim C3, counterexample: upsert is not idempotent in general.  With a
2025 partition already holding an entry under `(X, 123)` with start date D1,
upserting a report under `(X, 123)` with start date D2 ≠ D1 (non-null
`sourceId`, parseable year) appends a new entry — and upserting the very
same report again appends yet another one, because `findInArchive` keeps
returning the first, D1-dated entry: the partition grows from 1 to 2 to 3
entries. -/
theorem c3_idempotence_counterexample :
    idReuseReport.properties.id_source = some "123" ∧
    getYearFromDateDebut idReuseReport.properties.date_debut = some 2025 ∧
    (loadArchive idReuseStore 2025).features.length = 1 ∧
    (loadArchive (addOrUpdateInArchive idReuseStore idReuseReport) 2025).features.length = 2 ∧
    (loadArchive (addOrUpdateInArchive (addOrUpdateInArchive idReuseStore idReuseReport)
        idReuseReport) 2025).features.length = 3 := by
  refine ⟨rfl, by decide, by decide, by decide, by decide⟩

/-- Claim C3, amended: the upsert is idempotent for an unchanged report with
a non-null `sourceId` and a parseable start-date year, provided the first
`(source, sourceId)` match of the target partition (if any) carries the
same start date as the report — in particular from any partition with no
entry under that pair.  (When the first match carries a different start
date, the ID-reuse append path re-fires on every upsert and duplicates the
entry, as the counterexample shows.) -/
theorem c3_idempotence_amended : ∀ (store : Store) (f : Feature) (s : String) (y : Nat),
    f.properties.id_source = some s →
    getYearFromDateDebut f.properties.date_debut = some y →
    y ≠ 0 →
    (∀ i e, findInArchive (loadArchive store y) f.properties.id_source f.properties.source
        = some i →
      (loadArchive store y).features[i]? = some e →
      e.properties.date_debut = f.properties.date_debut) →
    addOrUpdateInArchive (addOrUpdateInArchive store f) f = addOrUpdateInArchive store f := by
  intro store f s y hid hy h0 hfirst
  have hmatchSelf : matchesIdSource f.properties.id_source f.properties.source (setSupp f)
      = true := by
    simp [matchesIdSource, setSupp]
  cases hfind : findInArchive (loadArchive store y) f.properties.id_source
      f.properties.source with
  | none =>
    have hstep1 : addOrUpdateInArchive store f =
        saveArchive store y { features := (loadArchive store y).features ++ [setSupp f] } :=
      addOrUpdate_append store f y hy h0 hfind
    have hload1 : loadArchive (addOrUpdateInArchive store f) y =
        { features := (loadArchive store y).features ++ [setSupp f] } := by
      rw [hstep1, loadArchive_saveArchive]
    have hpnone : findIdxA (matchesIdSource f.properties.id_source f.properties.source)
        (loadArchive store y).features = none := hfind
    have hfind2 : findInArchive (loadArchive (addOrUpdateInArchive store f) y)
        f.properties.id_source f.properties.source
        = some (loadArchive store y).features.length := by
      rw [hload1]
      unfold findInArchive
      exact findIdxA_mid _ _ [] (setSupp f) hpnone hmatchSelf
    have hget2 : (loadArchive (addOrUpdateInArchive store f) y).features[
        (loadArchive store y).features.length]? = some (setSupp f) := by
      rw [hload1]
      exact getElem?_append_length _ [] (setSupp f)
    have heq2 : (setSupp f).properties.date_debut = f.properties.date_debut :=
      setSupp_date_debut f
    have hstep2 := addOrUpdate_update (addOrUpdateInArchive store f) f y
      (loadArchive store y).features.length (setSupp f) hy h0 hfind2 hget2 heq2
    rw [hload1] at hstep2
    rw [hstep2, updateExisting_setSupp, set_append_length _ [] (setSupp f) (setSupp f),
      hstep1, saveArchive_saveArchive]
  | some i =>
    obtain ⟨l₁, e, l₂, hdec, hlen, hnone, hpe⟩ :=
      findIdxA_spec (matchesIdSource f.properties.id_source f.properties.source)
        (loadArchive store y).features i hfind
    have hget : (loadArchive store y).features[i]? = some e := by
      rw [hdec, ← hlen]
      exact getElem?_append_length l₁ l₂ e
    have heq : e.properties.date_debut = f.properties.date_debut := hfirst i e hfind hget
    have hstep1 : addOrUpdateInArchive store f =
        saveArchive store y
          { features := (loadArchive store y).features.set i (updateExisting e f) } :=
      addOrUpdate_update store f y i e hy h0 hfind hget heq
    have hset1 : (loadArchive store y).features.set i (updateExisting e f)
        = l₁ ++ updateExisting e f :: l₂ := by
      rw [hdec, ← hlen]
      exact set_append_length l₁ l₂ e (updateExisting e f)
    have hload1 : loadArchive (addOrUpdateInArchive store f) y =
        { features := l₁ ++ updateExisting e f :: l₂ } := by
      rw [hstep1, loadArchive_saveArchive, hset1]
    have hpu : matchesIdSource f.properties.id_source f.properties.source (updateExisting e f)
        = true := by
      rw [updateExisting_matches]
      exact hpe
    have hfind2 : findInArchive (loadArchive (addOrUpdateInArchive store f) y)
        f.properties.id_source f.properties.source = some l₁.length := by
      rw [hload1]
      unfold findInArchive
      exact findIdxA_mid _ l₁ l₂ (updateExisting e f) hnone hpu
    have hget2 : (loadArchive (addOrUpdateInArchive store f) y).features[l₁.length]?
        = some (updateExisting e f) := by
      rw [hload1]
      exact getElem?_append_length l₁ l₂ (updateExisting e f)
    have heq2 : (updateExisting e f).properties.date_debut = f.properties.date_debut := by
      rw [updateExisting_date_debut]
      exact heq
    have hstep2 := addOrUpdate_update (addOrUpdateInArchive store f) f y
      l₁.length (updateExisting e f) hy h0 hfind2 hget2 heq2
    rw [hload1] at hstep2
    rw [hstep2, updateExisting_idem,
      set_append_length l₁ l₂ (updateExisting e f) (updateExisting e f)]
    calc saveArchive (addOrUpdateInArchive store f) y
          { features := l₁ ++ updateExisting e f :: l₂ }
        = saveArchive (saveArchive store y { features := l₁ ++ updateExisting e f :: l₂ }) y
            { features := l₁ ++ updateExisting e f :: l₂ } := by
          rw [hstep1, hset1]
      _ = saveArchive store y { features := l₁ ++ updateExisting e f :: l₂ } :=
          saveArchive_saveArchive store y _
      _ = addOrUpdateInArchive store f := by
          rw [hstep1, hset1]

/-- Claim C3, witness: idempotence on a concrete clean store (the
first-match hypothesis holds vacuously on the empty store). -/
theorem c3_idempotence_amended_witness :
    addOrUpdateInArchive (addOrUpdateInArchive [] idReuseReport) idReuseReport
      = addOrUpdateInArchive [] idReuseReport := by
  exact c3_idempotence_amended [] idReuseReport "123" 2025 rfl (by decide) (by decide)
    (by
      intro i e hfi hge
      have hn : findInArchive (loadArchive ([] : Store) 2025)
          idReuseReport.properties.id_source idReuseReport.properties.source = none := by
        decide
      rw [hn] at hfi
      exact Option.noConfusion hfi)

/-- Claim C7 (confirmed): when the upsert matches an existing entry on
`(source, sourceId)` with equal `date_debut`, the partition's only change is
that entry, replaced by `updateExisting`: geometry, `type_coupure` and
`commentaire` are always refreshed from the incoming report; `statut`,
`statut_resolu` and `date_fin` move to `Résolu`/incoming `date_fin` exactly
when the stored entry was not yet resolved and the incoming report is
resolved with a non-empty `date_fin`, and are untouched otherwise; every
other stored field — identity (`source`, `id_source`, original
`date_debut`) included — is unchanged. -/
theorem c7_same_event_update_frame : ∀ (store : Store) (f : Feature) (y i : Nat) (e : Feature),
    getYearFromDateDebut f.properties.date_debut = some y →
    y ≠ 0 →
    findInArchive (loadArchive store y) f.properties.id_source f.properties.source = some i →
    (loadArchive store y).features[i]? = some e →
    e.properties.date_debut = f.properties.date_debut →
    (loadArchive (addOrUpdateInArchive store f) y).features
        = (loadArchive store y).features.set i (updateExisting e f) ∧
    (updateExisting e f).geometry = f.geometry ∧
    (updateExisting e f).properties.type_coupure = f.properties.type_coupure ∧
    (updateExisting e f).properties.commentaire = f.properties.commentaire ∧
    (e.properties.statut_resolu = false → f.properties.statut_resolu = true →
      f.properties.date_fin ≠ "" →
      (updateExisting e f).properties.statut = "Résolu" ∧
      (updateExisting e f).properties.statut_resolu = true ∧
      (updateExisting e f).properties.date_fin = f.properties.date_fin) ∧
    ((e.properties.statut_resolu = true ∨ f.properties.statut_resolu = false ∨
        f.properties.date_fin = "") →
      (updateExisting e f).properties.statut = e.properties.statut ∧
      (updateExisting e f).properties.statut_resolu = e.properties.statut_resolu ∧
      (updateExisting e f).properties.date_fin = e.properties.date_fin) ∧
    (updateExisting e f).properties.id = e.properties.id ∧
    (updateExisting e f).properties.id_source = e.properties.id_source ∧
    (updateExisting e f).properties.source = e.properties.source ∧
    (updateExisting e f).properties.route = e.properties.route ∧
    (updateExisting e f).properties.commune = e.properties.commune ∧
    (updateExisting e f).properties.cause = e.properties.cause ∧
    (updateExisting e f).properties.statut_actif = e.properties.statut_actif ∧
    (updateExisting e f).properties.sens_circulation = e.properties.sens_circulation ∧
    (updateExisting e f).properties.date_debut = e.properties.date_debut ∧
    (updateExisting e f).properties.date_saisie = e.properties.date_saisie ∧
    (updateExisting e f).properties.date_suppression = e.properties.date_suppression ∧
    (updateExisting e f).properties.gestionnaire = e.properties.gestionnaire := by
  intro store f y i e hy h0 hfind hget heq
  refine ⟨?_, ?_, ?_, ?_, ?_, ?_, ?_, ?_, ?_, ?_, ?_, ?_, ?_, ?_, ?_, ?_, ?_, ?_⟩
  · rw [addOrUpdate_update store f y i e hy h0 hfind hget heq, loadArchive_saveArchive]
  all_goals (
    first
      | (unfold updateExisting
         by_cases hc : (!e.properties.statut_resolu &&
             (f.properties.statut_resolu && (f.properties.date_fin != ""))) = true
         · simp [hc]
         · simp [hc])
      | skip)
  · intro h1 h2 h3
    have hc : (!e.properties.statut_resolu &&
        (f.properties.statut_resolu && (f.properties.date_fin != ""))) = true := by
      simp [h1, h2, bne_iff_ne.mpr h3]
    unfold updateExisting
    simp [hc]
  · intro hdisj
    have hc : (!e.properties.statut_resolu &&
        (f.properties.statut_resolu && (f.properties.date_fin != ""))) = false := by
      rcases hdisj with h | h | h
      · simp [h]
      · simp [h]
      · simp [h]
    unfold updateExisting
    simp [hc]

/-- Claim C7, witness: the concrete active entry under `(Y, 42)` re-observed
as resolved — the partition holds its updated copy, the statut transition
and `date_fin` copy happen, and `commentaire` is refreshed. -/
theorem c7_same_event_update_frame_witness :
    (loadArchive (addOrUpdateInArchive archActiveStore incomingResolved) 2025).features
        = [updateExisting archActiveEntry incomingResolved] ∧
    (updateExisting archActiveEntry incomingResolved).properties.statut = "Résolu" ∧
    (updateExisting archActiveEntry incomingResolved).properties.date_fin
        = "02/06/2025 à 09h00" ∧
    (updateExisting archActiveEntry incomingResolved).properties.commentaire = "màj" ∧
    (updateExisting archActiveEntry incomingResolved).properties.id_source = some "42" := by
  have h := c7_same_event_update_frame archActiveStore incomingResolved 2025 0 archActiveEntry
    (by decide) (by decide) (by decide) (by decide) (by decide)
  refine ⟨?_, ?_, ?_, ?_, ?_⟩
  · rw [h.1]
    decide
  · exact (h.2.2.2.2.1 rfl rfl (by decide)).1
  · exact (h.2.2.2.2.1 rfl rfl (by decide)).2.2
  · rw [h.2.2.2.1]
    decide
  · rw [h.2.2.2.2.2.2.2.1]
    decide

theorem dateSuppressionFormatted_ne_empty (now : LocalNow) :
    dateSuppressionFormatted now ≠ "" := by
  intro h
  have h2 := congrArg String.data h
  simp [dateSuppressionFormatted, String.data_append] at h2

theorem processMissing_not_found (src id : String) (now : LocalNow) (store : Store)
    (h1 : findInArchive (loadArchive store now.year) (some id) src = none)
    (h2 : findInArchive (loadArchive store (now.year - 1)) (some id) src = none) :
    processMissing src id now store = store := by
  simp [processMissing, processYear, h1, h2]

theorem processMissing_found_current (src id : String) (now : LocalNow) (store : Store)
    (i : Nat) (e : Feature)
    (hfind : findInArchive (loadArchive store now.year) (some id) src = some i)
    (hget : (loadArchive store now.year).features[i]? = some e)
    (hact : e.properties.statut_actif = true)
    (hsupp : e.properties.date_suppression = "") :
    processMissing src id now store =
      saveArchive store now.year
        { features := (loadArchive store now.year).features.set i (markDeleted now e) } := by
  simp [processMissing, processYear, hfind, hget, hact, hsupp]

theorem processMissing_found_prev (src id : String) (now : LocalNow) (store : Store)
    (i : Nat) (e : Feature)
    (h1 : findInArchive (loadArchive store now.year) (some id) src = none)
    (hfind : findInArchive (loadArchive store (now.year - 1)) (some id) src = some i)
    (hget : (loadArchive store (now.year - 1)).features[i]? = some e)
    (hact : e.properties.statut_actif = true)
    (hsupp : e.properties.date_suppression = "") :
    processMissing src id now store =
      saveArchive store (now.year - 1)
        { features := (loadArchive store (now.year - 1)).features.set i (markDeleted now e) } := by
  simp [processMissing, processYear, h1, hfind, hget, hact, hsupp]

theorem detectDeleted_singleton (store : Store) (prevDate src id : String) (now : LocalNow)
    (iso : String) (fs : List Feature)
    (hdate : prevDate ≠ "")
    (hmiss : (lookupActifs (buildCurrentActifs fs) src).contains id = false) :
    detectDeletedSignalements now iso fs ⟨store, ⟨some prevDate, [(src, [id])]⟩⟩ =
      ⟨processMissing src id now store, ⟨some iso, buildCurrentActifs fs⟩⟩ := by
  have ht : optTruthy (some prevDate) = true := by
    simp [optTruthy, hdate]
  have hmem : id ∉ lookupActifs (buildCurrentActifs fs) src := by
    simpa using hmiss
  simp [detectDeletedSignalements, ht, hmem]

/-- Claim C5 (confirmed): for a `(source, sourceId)` pair active in the
previous snapshot but not active in the current run, deletion detection
reduces to the two-year archive lookup `processMissing` (current year, then
the preceding year).  When neither partition has a matching entry, the store
is unchanged and no error occurs; when the first matching entry of either
year is still active with an empty `date_suppression`, exactly that entry is
replaced by its deleted copy — `statut` becomes `Supprimé`, `statut_actif`
false, `date_suppression` a non-empty formatted timestamp — and the
partition is persisted. -/
theorem c5_deletion_detection :
    ∀ (store : Store) (prevDate src id : String) (now : LocalNow) (iso : String)
      (fs : List Feature),
      prevDate ≠ "" →
      (lookupActifs (buildCurrentActifs fs) src).contains id = false →
      ((detectDeletedSignalements now iso fs ⟨store, ⟨some prevDate, [(src, [id])]⟩⟩).store
          = processMissing src id now store) ∧
      (findInArchive (loadArchive store now.year) (some id) src = none →
        findInArchive (loadArchive store (now.year - 1)) (some id) src = none →
        (detectDeletedSignalements now iso fs ⟨store, ⟨some prevDate, [(src, [id])]⟩⟩).store
          = store) ∧
      (∀ i e, findInArchive (loadArchive store now.year) (some id) src = some i →
        (loadArchive store now.year).features[i]? = some e →
        e.properties.statut_actif = true →
        e.properties.date_suppression = "" →
        (detectDeletedSignalements now iso fs ⟨store, ⟨some prevDate, [(src, [id])]⟩⟩).store
            = saveArchive store now.year
              { features := (loadArchive store now.year).features.set i (markDeleted now e) } ∧
          (markDeleted now e).properties.statut = "Supprimé" ∧
          (markDeleted now e).properties.statut_actif = false ∧
          (markDeleted now e).properties.date_suppression ≠ "") ∧
      (∀ i e, findInArchive (loadArchive store now.year) (some id) src = none →
        findInArchive (loadArchive store (now.year - 1)) (some id) src = some i →
        (loadArchive store (now.year - 1)).features[i]? = some e →
        e.properties.statut_actif = true →
        e.properties.date_suppression = "" →
        (detectDeletedSignalements now iso fs ⟨store, ⟨some prevDate, [(src, [id])]⟩⟩).store
            = saveArchive store (now.year - 1)
              { features :=
                (loadArchive store (now.year - 1)).features.set i (markDeleted now e) } ∧
          (markDeleted now e).properties.statut = "Supprimé" ∧
          (markDeleted now e).properties.statut_actif = false ∧
          (markDeleted now e).properties.date_suppression ≠ "") := by
  intro store prevDate src id now iso fs hdate hmiss
  have hsing := detectDeleted_singleton store prevDate src id now iso fs hdate hmiss
  have hstore :
      (detectDeletedSignalements now iso fs ⟨store, ⟨some prevDate, [(src, [id])]⟩⟩).store
        = processMissing src id now store := by
    rw [hsing]
  refine ⟨hstore, ?_, ?_, ?_⟩
  · intro h1 h2
    rw [hstore, processMissing_not_found src id now store h1 h2]
  · intro i e hfind hget hact hsupp
    refine ⟨?_, rfl, rfl, ?_⟩
    · rw [hstore, processMissing_found_current src id now store i e hfind hget hact hsupp]
    · simp [markDeleted]
      exact dateSuppressionFormatted_ne_empty now
  · intro i e h1 hfind hget hact hsupp
    refine ⟨?_, rfl, rfl, ?_⟩
    · rw [hstore, processMissing_found_prev src id now store i e h1 hfind hget hact hsupp]
    · simp [markDeleted]
      exact dateSuppressionFormatted_ne_empty now

/-- Claim C5, witness: the concrete pair `(Y, 42)` — active in the previous
snapshot, absent from the current (empty) run — is found in the 2025
partition and transitioned to `Supprimé` with the formatted deletion
timestamp; its deleted copy replaces the stored entry. -/
theorem c5_deletion_detection_witness :
    (detectDeletedSignalements c5Now "2025-06-15T08:30:00.000Z" []
        ⟨archActiveStore, ⟨some "2025-06-14T08:00:00.000Z", [("Y", ["42"])]⟩⟩).store
        = saveArchive archActiveStore 2025
          { features :=
            (loadArchive archActiveStore 2025).features.set 0 (markDeleted c5Now archActiveEntry) } ∧
    (markDeleted c5Now archActiveEntry).properties.statut = "Supprimé" ∧
    (markDeleted c5Now archActiveEntry).properties.date_suppression = "15/06/2025 à 10h30" := by
  have h := (c5_deletion_detection archActiveStore "2025-06-14T08:00:00.000Z" "Y" "42" c5Now
    "2025-06-15T08:30:00.000Z" [] (by decide) (by decide)).2.2.1 0 archActiveEntry
    (by decide) (by decide) rfl rfl
  exact ⟨h.1, h.2.1, by decide⟩
